import Mathlib

/-!
# Verification of the WLED-to-Hyperion LED controller adapter

A shallow embedding of `led_controller.py` (class `LEDController`): the
command-synthesis and state-reconciliation engine that translates WLED-style
calls (power / brightness / color / effect / preset) into Hyperion JSON-TCP
commands and translates Hyperion state back into WLED-shaped status
dictionaries.

Modelling conventions:
* The downstream Hyperion server and the network are modelled by an oracle
  `Env : Nat → SendResult` giving the outcome of the n-th socket round trip
  (a parsed reply, a timeout, a refused connection, an OS error, a malformed
  reply, or some other unexpected exception).
* Python exceptions are modelled by `Except PyExc`; a method body is a state
  transformer over a `World` holding the controller configuration, the
  round-trip counter and the trace of issued commands.
* Python `int` arguments (which may also be `None` at call sites) are
  modelled by `PyVal`; other argument types (e.g. strings passed where ints
  are expected) are outside the model.
* Python float arithmetic in the brightness rescalers is modelled by exact
  rational arithmetic with round-half-to-even, which agrees with the float
  computation on every reachable input (the nearest rounding boundary is
  orders of magnitude farther than the float error; where the float product
  lands exactly on a .5 boundary it does so for the same inputs as the exact
  rational).  The `speed`/`intensity` effect-argument scaling stores the
  exact rational `max (1/10) (x/128)`; no logic reads these values back.
* `time.sleep`, logging, and the `token`/`tan` fields injected into the
  request object (attached but never read back) are not observable in any
  claim and are not modelled.
-/

set_option linter.unusedVariables false

namespace HyperionAdapter

/-! ## Downstream data model (Hyperion serverinfo snapshots and replies) -/

/-- One entry of `serverinfo.components`: `comp.get("name")` and
`comp.get("enabled", False)`. -/
structure Component where
  name : Option String
  enabled : Option Bool
deriving DecidableEq, Repr

/-- One entry of `serverinfo.adjustment`: an optional `brightness` field. -/
structure Adjustment where
  brightness : Option Int
deriving DecidableEq, Repr

/-- One entry of `serverinfo.priorities`: visibility flag, `componentId`,
`owner`, and `value.RGB`. -/
structure PrioritySource where
  visible : Bool
  componentId : Option String
  owner : Option String
  valueRGB : Option (List Int)
deriving DecidableEq, Repr

/-- The `info` object of a `serverinfo` reply. -/
structure ServerInfo where
  components : List Component
  adjustment : List Adjustment
  priorities : List PrioritySource
deriving DecidableEq, Repr

/-- A parsed JSON reply: the `success` flag and the optional `info` object. -/
structure Response where
  success : Bool
  info : Option ServerInfo
deriving DecidableEq, Repr

/-! ## Commands issued to Hyperion -/

/-- Hyperion effect arguments assembled by the adapter
(`speed`, `intensity`, `color`, `colors`, `palette`). -/
structure EffectArgs where
  speed : Option ℚ
  intensity : Option ℚ
  color : Option (List Int)
  colors : Option (List (List Int))
  palette : Option Int
deriving DecidableEq, Repr

/-- Hyperion effect arguments with no entries (the Python `{}`). -/
def emptyArgs : EffectArgs := ⟨none, none, none, none, none⟩

/-- The command vocabulary sent downstream. -/
inductive HCommand
  | serverinfo
  | componentstate (component : String) (state : Bool)
  | adjustment (brightness : Int)
  | effect (name : String) (args : EffectArgs) (priority : Int) (origin : String)
  | color (rgb : List Int) (priority : Int) (origin : String)
deriving DecidableEq, Repr

/-- A preset action descriptor from `WLED_TO_HYPERION_PRESET_MAP`:
`{"type": "effect", "name": …, "args": …}` or `{"type": "color", "rgb": …}`. -/
inductive PresetAction
  | effect (name : String) (args : EffectArgs)
  | color (rgb : List Int)
deriving DecidableEq, Repr

/-! ## The static lookup tables (from the top of `led_controller.py`) -/

def WLED_TO_HYPERION_EFFECT_MAP : List (Int × String) :=
  [(2, "Breath"), (5, "Random"), (7, "Random"), (8, "Rainbow mood"),
   (9, "Rainbow swirl"), (10, "Knight rider"), (11, "Knight rider"),
   (12, "Breath"), (15, "Waves with Color"), (17, "Sparks"), (20, "Sparks"),
   (28, "Snake"), (38, "Cold mood blobs"), (40, "Knight rider"),
   (42, "Sparks"), (43, "Sparks"), (45, "Fire"), (47, "Knight rider"),
   (49, "X-Mas"), (51, "X-Mas"), (57, "Strobe white"), (63, "Rainbow swirl"),
   (66, "Fire"), (67, "Waves with Color"), (74, "Sparks"), (75, "Sea waves"),
   (76, "Trails"), (77, "Trails"), (80, "X-Mas"), (88, "Candle"),
   (89, "Sparks"), (92, "Knight rider"), (97, "Plasma"), (100, "Breath"),
   (101, "Sea waves"), (102, "Candle"), (105, "Waves with Color"),
   (108, "Waves with Color"), (121, "Full color mood blobs"),
   (131, "Matrix"), (153, "Matrix"), (154, "Plasma"),
   (162, "Waves with Color"), (166, "Warm mood blobs"),
   (175, "Double swirl"), (179, "Rainbow swirl"), (180, "Plasma"),
   (183, "Atomic swirl"), (184, "Waves with Color")]

def WLED_TO_HYPERION_PRESET_MAP : List (Int × PresetAction) :=
  [(1, PresetAction.effect "Preset01" emptyArgs),
   (2, PresetAction.effect "Preset02" emptyArgs)]

def HYPERION_DEFAULT_PORT : Int := 19444
def HYPERION_DEFAULT_PRIORITY : Int := 50
def HYPERION_COMPONENT_LEDDEVICE : String := "LEDDEVICE"
def HYPERION_ORIGIN_NAME : String := "LEDController"

/-! ## Brightness rescaling (Python `round` is round-half-to-even) -/

/-- Python's `round()` applied to the exact rational `a / b` (`b > 0`):
round half to even, in integer arithmetic (`f` is the floor of `a / b` and
`2·(a − f·b)` is compared against `b` to place the fraction relative to
one half). -/
def roundHalfEven (a b : Int) : Int :=
  let f : Int := Int.fdiv a b
  let r2 : Int := 2 * (a - f * b)
  if r2 < b then f
  else if b < r2 then f + 1
  else if f % 2 = 0 then f else f + 1

/-- `max(0, min(100, round((b / 255.0) * 100)))` — WLED 0–255 to Hyperion
0–100. -/
def wledToHyperionBrightness (b : Int) : Int :=
  max 0 (min 100 (roundHalfEven (b * 100) 255))

/-- `round((v / 100.0) * 255)` — Hyperion 0–100 to WLED 0–255. -/
def hyperionToWledBrightness (v : Int) : Int :=
  roundHalfEven (v * 255) 100

/-- `max(0.1, x / 128.0)` — the WLED speed/intensity scaling for Hyperion
effect arguments. -/
def effectSpeedScale (x : Int) : ℚ := max (1/10) ((x : ℚ) / 128)

/-! ## Controller configuration and the execution world -/

/-- The mutable configuration of an `LEDController` instance. -/
structure LEDController where
  ip_address : Option String
  port : Int
  priority : Int
  auth_token : Option String
  origin : String
deriving DecidableEq, Repr

/-- `LEDController.__init__`. -/
def LEDController.init (ip : Option String) (port : Int) : LEDController :=
  ⟨ip, port, HYPERION_DEFAULT_PRIORITY, none, HYPERION_ORIGIN_NAME⟩

/-- `set_ip`: update the address, and the port only when one is given. -/
def LEDController.set_ip (c : LEDController) (ip : String)
    (port : Option Int) : LEDController :=
  { c with ip_address := some ip, port := port.getD c.port }

/-- `set_auth_token`. -/
def LEDController.set_auth_token (c : LEDController) (token : String) :
    LEDController :=
  { c with auth_token := some token }

/-- Python truthiness of `self.ip_address` (`None` and `""` are falsy). -/
def LEDController.ipTruthy (c : LEDController) : Bool :=
  match c.ip_address with
  | none => false
  | some s => !(s == "")

/-- The outcome of one socket round trip, supplied by the environment. -/
inductive SendResult
  | ok (resp : Response)
  | timeout
  | refused
  | osError (emsg : String)
  | badJson (emsg : String)
  | otherExc (emsg : String)
deriving DecidableEq, Repr

/-- The downstream behaviour: outcome of the n-th round trip. -/
def Env : Type := Nat → SendResult

/-- Python exceptions that can cross method boundaries in this program. -/
inductive PyExc
  | valueError (msg : String)
  | typeError (msg : String)
  | connectionError (msg : String)
  | jsonDecodeError (msg : String)
  | otherError (msg : String)
deriving DecidableEq, Repr

/-- The state threaded through a public call: the controller object, the
round-trip counter, and the trace of commands issued to the socket. -/
structure World where
  ctrl : LEDController
  idx : Nat
  sent : List HCommand
deriving DecidableEq, Repr

/-- A fallible, state-passing computation (Python method body). -/
def M (α : Type) : Type := World → Except PyExc α × World

/-- `return`-like embedding. -/
def mret {α : Type} (a : α) : M α := fun w => (Except.ok a, w)

/-- `raise`-like embedding. -/
def mthrow {α : Type} (e : PyExc) : M α := fun w => (Except.error e, w)

/-- Sequencing: run `x`; on success continue with `f`, on an exception
propagate it (state changes made before the raise persist). -/
def mbind {α β : Type} (x : M α) (f : α → M β) : M β := fun w =>
  match x w with
  | (Except.ok a, w') => f a w'
  | (Except.error e, w') => (Except.error e, w')

/-- `try/except`: run `x`; on an exception continue with the handler. -/
def mtry {α : Type} (x : M α) (h : PyExc → M α) : M α := fun w =>
  match x w with
  | (Except.ok a, w') => (Except.ok a, w')
  | (Except.error e, w') => h e w'

/-- Record a command in the trace and advance the round-trip counter. -/
def World.push (w : World) (cmd : HCommand) : World :=
  { w with idx := w.idx + 1, sent := w.sent ++ [cmd] }

/-! ## `_send_hyperion_command`: one socket round trip -/

/-- `_send_hyperion_command`: raises `ValueError` when no address is
configured (before any network activity); otherwise performs one round trip
whose outcome the environment dictates, re-raising socket errors as
`ConnectionError`s and malformed payloads as `JSONDecodeError` (any other
exception propagates as itself).  The `token`/`tan` injection is not
observable and not modelled. -/
def sendHyperion (env : Env) (cmd : HCommand) : M Response := fun w =>
  if w.ctrl.ipTruthy then
    let ip := w.ctrl.ip_address.getD ""
    let w' := w.push cmd
    match env w.idx with
    | SendResult.ok resp => (Except.ok resp, w')
    | SendResult.timeout =>
        (Except.error (PyExc.connectionError
          ("Timeout communicating with Hyperion at " ++ ip ++ ":" ++
            toString w.ctrl.port)), w')
    | SendResult.refused =>
        (Except.error (PyExc.connectionError
          ("Connection refused by Hyperion at " ++ ip ++ ":" ++
            toString w.ctrl.port)), w')
    | SendResult.osError m =>
        (Except.error (PyExc.connectionError
          ("Socket OS error with Hyperion: " ++ m)), w')
    | SendResult.badJson m => (Except.error (PyExc.jsonDecodeError m), w')
    | SendResult.otherExc m => (Except.error (PyExc.otherError m), w')
  else (Except.error (PyExc.valueError "No Hyperion IP configured"), w)

/-- `_get_hyperion_serverinfo`: send `{"command": "serverinfo"}`; return the
`info` object when the reply is successful, `None` otherwise; swallow every
exception into `None`. -/
def getServerinfo (env : Env) : M (Option ServerInfo) :=
  mtry
    (mbind (sendHyperion env HCommand.serverinfo) (fun resp =>
      mret (if resp.success then resp.info else none)))
    (fun _ => mret none)

/-! ## WLED-style desired state (`state_params`) -/

/-- The WLED `"on"` parameter as the adapter's callers pass it:
a boolean, or the string `"t"` for toggle. -/
inductive PowerParam
  | state (b : Bool)
  | toggle
deriving DecidableEq, Repr

/-- One WLED segment descriptor (the keys `_send_command` reads). -/
structure SegmentData where
  fx : Option Int
  sx : Option Int
  ix : Option Int
  pal : Option Int
  col : Option (List (List Int))
deriving DecidableEq, Repr

/-- The WLED-style `state_params` dictionary (the keys `_send_command`
reads).  Absent keys are `none`. -/
structure StateParams where
  onParam : Option PowerParam
  bri : Option Int
  seg : Option (List SegmentData)
  ps : Option Int
  transition : Option Int
deriving DecidableEq, Repr

/-- Python truthiness of the `state_params` dict: non-empty. -/
def StateParams.truthy (p : StateParams) : Bool :=
  p.onParam.isSome || p.bri.isSome || p.seg.isSome || p.ps.isSome ||
    p.transition.isSome

/-- `state_params is not None and "on" in state_params`. -/
def isPowerControlCommand (sp : Option StateParams) : Bool :=
  match sp with
  | none => false
  | some p => p.onParam.isSome

/-- `state_params and any(k in state_params for k in ["bri","seg","ps"])`. -/
def isVisualEffectCommand (sp : Option StateParams) : Bool :=
  match sp with
  | none => false
  | some p => p.bri.isSome || p.seg.isSome || p.ps.isSome

/-- Truthiness of the optional `state_params`. -/
def spTruthy (sp : Option StateParams) : Bool :=
  match sp with
  | none => false
  | some p => p.truthy

/-! ## Reading the LEDDEVICE enablement out of a snapshot -/

/-- The component scan of `_send_command`: starting from `dflt`, take
`comp.get("enabled", False)` of the first component named `LEDDEVICE`. -/
def leddeviceEnabledOr (dflt : Bool) (info : ServerInfo) : Bool :=
  match info.components.find?
      (fun comp => comp.name == some HYPERION_COMPONENT_LEDDEVICE) with
  | none => dflt
  | some comp => comp.enabled.getD false

/-- The component scan with the usual `False` start value. -/
def leddeviceEnabled (info : ServerInfo) : Bool := leddeviceEnabledOr false info

/-! ## Command synthesis (the middle of `_send_command`) -/

/-- The auto power-on precondition: when the device was not seen enabled and
the call is visual but not power-control, issue a power-on `componentstate`
first (the subsequent `time.sleep(0.1)` is not modelled). -/
def autoPowerOn (env : Env) (sp : Option StateParams) (onBefore : Bool) :
    M Unit :=
  if !onBefore && spTruthy sp && isVisualEffectCommand sp &&
      !isPowerControlCommand sp then
    mbind (sendHyperion env
      (HCommand.componentstate HYPERION_COMPONENT_LEDDEVICE true))
      (fun _ => mret ())
  else mret ()

/-- The `"on"` processing: resolve toggle semantics (re-fetching the
snapshot when the initial read failed, i.e. was `None`), then issue one
`componentstate` command with the resolved boolean. -/
def processPower (env : Env) (p : PowerParam) (onBefore : Bool)
    (infoBeforeMissing : Bool) : M Unit :=
  mbind
    (match p with
     | PowerParam.state b => mret b
     | PowerParam.toggle =>
        if infoBeforeMissing then
          mbind (getServerinfo env) (fun info2 =>
            mret (match info2 with
                  | none => !onBefore
                  | some i => !(leddeviceEnabledOr onBefore i)))
        else mret (!onBefore))
    (fun target =>
      mbind (sendHyperion env
        (HCommand.componentstate HYPERION_COMPONENT_LEDDEVICE target))
        (fun _ => mret ()))

/-- Build the Hyperion effect arguments from a WLED segment: scaled speed and
intensity, the colors truncated to RGB (plus a singular `color` when exactly
one is given), and the palette index passed through verbatim. -/
def effectArgsOfSegment (seg : SegmentData) : EffectArgs :=
  let base : EffectArgs :=
    ⟨seg.sx.map effectSpeedScale, seg.ix.map effectSpeedScale,
      none, none, seg.pal⟩
  match seg.col with
  | some (c :: cs) =>
      let colors := (c :: cs).map (fun x => x.take 3)
      { base with
        color := if cs.isEmpty then some (c.take 3) else none,
        colors := some colors }
  | _ => base

/-- The `"seg"` processing on the first segment: a mapped effect index
issues one effect command; an unmapped index issues nothing (warning only);
with no effect index but colors present, issue one solid-color command from
the first color's RGB components. -/
def processSegment (env : Env) (seg : SegmentData) : M Unit := fun w =>
  match seg.fx with
  | some fxIdx =>
      (match WLED_TO_HYPERION_EFFECT_MAP.lookup fxIdx with
       | some name =>
          (mbind (sendHyperion env (HCommand.effect name
              (effectArgsOfSegment seg) w.ctrl.priority w.ctrl.origin))
            (fun _ => mret ())) w
       | none => mret () w)
  | none =>
      match seg.col with
      | some (c0 :: _) =>
          (mbind (sendHyperion env (HCommand.color (c0.take 3)
              w.ctrl.priority w.ctrl.origin))
            (fun _ => mret ())) w
      | _ => mret () w

/-- The origin string used for preset commands: the configured origin,
`"_P"`, the preset id, truncated to 20 characters. -/
def presetOrigin (origin : String) (pid : Int) : String :=
  (origin ++ "_P" ++ toString pid).take 20

/-- The `"ps"` processing: a mapped preset id issues the effect or color
command its action descriptor denotes; an unmapped id issues nothing
(warning only). -/
def processPreset (env : Env) (pid : Int) : M Unit := fun w =>
  match WLED_TO_HYPERION_PRESET_MAP.lookup pid with
  | some (PresetAction.effect name args) =>
      (mbind (sendHyperion env (HCommand.effect name args w.ctrl.priority
          (presetOrigin w.ctrl.origin pid)))
        (fun _ => mret ())) w
  | some (PresetAction.color rgb) =>
      (mbind (sendHyperion env (HCommand.color rgb w.ctrl.priority
          (presetOrigin w.ctrl.origin pid)))
        (fun _ => mret ())) w
  | none => mret () w

/-- The whole `if state_params:` block of `_send_command`, in source order:
power, brightness, first segment, preset (`transition` is accepted but
produces no command). -/
def processParams (env : Env) (sp : Option StateParams) (onBefore : Bool)
    (infoBeforeMissing : Bool) : M Unit :=
  match sp with
  | none => mret ()
  | some p =>
      if p.truthy then
        mbind
          (match p.onParam with
           | some pw => processPower env pw onBefore infoBeforeMissing
           | none => mret ())
          (fun _ =>
        mbind
          (match p.bri with
           | some b =>
              mbind (sendHyperion env
                (HCommand.adjustment (wledToHyperionBrightness b)))
                (fun _ => mret ())
           | none => mret ())
          (fun _ =>
        mbind
          (match p.seg with
           | some (s0 :: _) => processSegment env s0
           | _ => mret ())
          (fun _ =>
        match p.ps with
        | some pid => processPreset env pid
        | none => mret ())))
      else mret ()

/-! ## State reconciliation (the tail of `_send_command`) -/

/-- Scan the adjustment list for the first entry carrying a `brightness`
field; default 100. -/
def firstAdjustmentBrightness (l : List Adjustment) : Int :=
  match l.find? (fun a => a.brightness.isSome) with
  | some a => a.brightness.getD 100
  | none => 100

/-- The reverse preset-match loop body: an effect-kind entry matches a
visible source whose `componentId` is `"EFFECT"` and whose `owner` equals
the mapped name; a color-kind entry matches one whose `componentId` is
`"COLOR"` and whose (truthy) `value.RGB` agrees with the mapped list on the
zipped pairs. -/
def presetEntryMatches (v : PrioritySource) (e : Int × PresetAction) : Bool :=
  match e.2 with
  | PresetAction.effect name _ =>
      v.componentId == some "EFFECT" && v.owner == some name
  | PresetAction.color rgb =>
      v.componentId == some "COLOR" &&
      (match v.valueRGB with
       | some (a :: l) => (rgb.zip (a :: l)).all (fun pr => pr.1 == pr.2)
       | _ => false)

/-- The `for wled_pid, preset_action_def in …` loop with `break`: first
matching entry wins; `-1` if none matches. -/
def presetLoop (v : PrioritySource) : List (Int × PresetAction) → Int
  | [] => -1
  | e :: rest => if presetEntryMatches v e then e.1 else presetLoop v rest

/-- Infer the active WLED preset id from the priorities list: take the first
source flagged visible and run the match loop over the preset map; `-1` when
none is visible. -/
def inferActivePreset (priorities : List PrioritySource) : Int :=
  match priorities.find? (fun p => p.visible) with
  | none => -1
  | some v => presetLoop v WLED_TO_HYPERION_PRESET_MAP

/-! ## The returned status dictionaries -/

/-- The WLED-shaped status dictionary.  The Python code returns dicts with
different key sets on different paths; absent keys are `none`. -/
structure Status where
  connected : Bool
  message : String
  is_on : Option Bool
  preset_id : Option Int
  playlist_id : Option Int
  brightness : Option Int
deriving DecidableEq, Repr

/-- A `{"connected": False, "message": …}` dictionary. -/
def failureStatus (msg : String) : Status :=
  ⟨false, msg, none, none, none, none⟩

/-- The success dictionary built from the final snapshot. -/
def buildFinalStatus (info : ServerInfo) : Status :=
  let isOn := leddeviceEnabled info
  { connected := true
    message := if isOn then "Hyperion is ON" else "Hyperion is OFF"
    is_on := some isOn
    preset_id := some (inferActivePreset info.priorities)
    playlist_id := some (-1)
    brightness := some (hyperionToWledBrightness
      (firstAdjustmentBrightness info.adjustment)) }

/-- The `except` ladder of `_send_command`: `ValueError`, connection-type
errors, `JSONDecodeError`, then the catch-all. -/
def excStatus (e : PyExc) : Status :=
  match e with
  | PyExc.valueError m => failureStatus m
  | PyExc.connectionError m =>
      failureStatus ("Cannot connect to Hyperion: " ++ m)
  | PyExc.jsonDecodeError m =>
      failureStatus ("Error parsing Hyperion response: " ++ m)
  | PyExc.typeError m =>
      failureStatus ("Unexpected Hyperion adapter error: " ++ m)
  | PyExc.otherError m =>
      failureStatus ("Unexpected Hyperion adapter error: " ++ m)

/-! ## `_send_command` -/

/-- The tail of `_send_command`: re-fetch the snapshot and build the final
status, raising `ConnectionError` when the fetch yields nothing. -/
def finStage (env : Env) : M Status :=
  mbind (getServerinfo env) (fun finalInfo =>
    match finalInfo with
    | none => mthrow (PyExc.connectionError
        "Failed to get Hyperion serverinfo after command execution.")
    | some fi => mret (buildFinalStatus fi))

/-- Everything `_send_command` does after the pre-command snapshot: derive
the observed enablement, run the auto power-on precondition, translate the
parameters, then reconcile. -/
def afterSnapshot (env : Env) (sp : Option StateParams)
    (infoBefore : Option ServerInfo) : M Status :=
  let onBefore := match infoBefore with
    | some i => leddeviceEnabled i
    | none => false
  mbind (autoPowerOn env sp onBefore) (fun _ =>
  mbind (processParams env sp onBefore infoBefore.isNone) (fun _ =>
  finStage env))

/-- The `try` body of `_send_command`: check the address, take the
pre-command snapshot (tolerating failure), and continue with
`afterSnapshot`. -/
def sendCommandBody (env : Env) (sp : Option StateParams) : M Status :=
  fun w =>
    if w.ctrl.ipTruthy then
      (mbind (getServerinfo env) (afterSnapshot env sp)) w
    else (Except.error (PyExc.valueError "No Hyperion IP configured"), w)

/-- `_send_command`: the body with its `except` ladder; never raises. -/
def sendCommand (env : Env) (sp : Option StateParams) :
    World → Status × World := fun w =>
  match sendCommandBody env sp w with
  | (Except.ok s, w') => (s, w')
  | (Except.error e, w') => (excStatus e, w')

/-! ## Python argument values for the public façade -/

/-- A caller-supplied argument: an integer or `None`.  (String and other
argument types are outside the model.) -/
inductive PyVal
  | none
  | int (n : Int)
deriving DecidableEq, Repr

/-- `val is not None`. -/
def PyVal.isNotNone : PyVal → Bool
  | PyVal.none => false
  | PyVal.int _ => true

/-- `val or 0` (an `int` is its own value — `0` stays `0` — and `None`
becomes `0`). -/
def PyVal.orZero : PyVal → Int
  | PyVal.none => 0
  | PyVal.int n => n

/-- `int(val)`: the identity on integers; `TypeError` on `None`. -/
def pyToInt : PyVal → Except PyExc Int
  | PyVal.int n => Except.ok n
  | PyVal.none =>
      Except.error (PyExc.typeError
        "int() argument must be a number, not NoneType")

/-- The chained comparison `lo <= val <= hi`: yields the integer and the
range verdict, or raises `TypeError` when `val` is `None`. -/
def pyCheckRange (lo : Int) (v : PyVal) (hi : Int) :
    Except PyExc (Int × Bool) :=
  match v with
  | PyVal.int n => Except.ok (n, decide (lo ≤ n) && decide (n ≤ hi))
  | PyVal.none =>
      Except.error (PyExc.typeError
        "comparison not supported between int and NoneType")

/-- `state in [0, 1, 2]` (membership via `==`, which never raises). -/
def pyValInPowerRange (v : PyVal) : Bool :=
  match v with
  | PyVal.int n => [0, 1, 2].contains n
  | PyVal.none => false

/-! ## Hex color parsing (`_hex_to_rgb`) -/

/-- The value of one hexadecimal digit. -/
def hexDigitVal (ch : Char) : Option Nat :=
  if '0' ≤ ch ∧ ch ≤ '9' then some (ch.toNat - '0'.toNat)
  else if 'a' ≤ ch ∧ ch ≤ 'f' then some (ch.toNat - 'a'.toNat + 10)
  else if 'A' ≤ ch ∧ ch ≤ 'F' then some (ch.toNat - 'A'.toNat + 10)
  else none

/-- `int(s, 16)` on a two-character slice. -/
def hexPair (c1 c2 : Char) : Option Nat :=
  match hexDigitVal c1, hexDigitVal c2 with
  | some h, some l => some (h * 16 + l)
  | _, _ => none

/-- `_hex_to_rgb`: strip leading `#`, require exactly six characters, parse
three byte pairs; the error value is the `ValueError` message. -/
def hexToRgb (s : String) : Except String (Int × Int × Int) :=
  match s.toList.dropWhile (fun ch => ch == '#') with
  | [a, b, c, d, e, f] =>
      (match hexPair a b, hexPair c d, hexPair e f with
       | some r, some g, some bl =>
          Except.ok ((r : Int), (g : Int), (bl : Int))
       | _, _, _ =>
          Except.error "invalid literal for int() with base 16")
  | _ => Except.error "Hex color must be 6 characters long (without #)"

/-! ## The public façade -/

/-- Wrap a non-raising call result into the method's `Except`-shaped
return. -/
def okRun (f : World → Status × World) : M Status := fun w =>
  let (s, w') := f w
  (Except.ok s, w')

/-- A validation failure returned before any network activity. -/
def validationReturn (msg : String) : M Status := fun w =>
  (Except.ok (failureStatus msg), w)

/-- `check_wled_status`: `_send_command()` with no parameters. -/
def check_wled_status (env : Env) : M Status :=
  okRun (sendCommand env none)

/-- `set_brightness`: validate `0 <= value <= 255`, then
`_send_command({"bri": value})`. -/
def set_brightness (env : Env) (value : PyVal) : M Status := fun w =>
  match pyCheckRange 0 value 255 with
  | Except.error e => (Except.error e, w)
  | Except.ok (n, inRange) =>
      if !inRange then
        validationReturn "Brightness must be between 0 and 255" w
      else okRun (sendCommand env (some ⟨none, some n, none, none, none⟩)) w

/-- `set_power`: validate membership in `[0, 1, 2]`; `2` toggles, otherwise
`bool(state)`. -/
def set_power (env : Env) (state : PyVal) : M Status := fun w =>
  if !pyValInPowerRange state then
    validationReturn "Power state must be 0 (Off), 1 (On), or 2 (Toggle)" w
  else
    match state with
    | PyVal.int n =>
        if n == 2 then
          okRun (sendCommand env
            (some ⟨some PowerParam.toggle, none, none, none, none⟩)) w
        else
          okRun (sendCommand env
            (some ⟨some (PowerParam.state (!(n == 0))), none, none, none,
              none⟩)) w
    | PyVal.none =>
        -- unreachable: `None` is not in `[0, 1, 2]`
        validationReturn "Power state must be 0 (Off), 1 (On), or 2 (Toggle)" w

/-- `set_color`: a hex string wins over RGB components (its `ValueError` is
caught and returned); otherwise RGB components with `None` as `0`; black
when nothing is supplied; `w` is accepted but ignored (warning only). -/
def set_color (env : Env) (r g b wv : PyVal) (hexArg : Option String) :
    M Status := fun w =>
  match hexArg with
  | some h =>
      (match hexToRgb h with
       | Except.error m => validationReturn m w
       | Except.ok (r1, g1, b1) =>
          okRun (sendCommand env (some ⟨none, none,
            some [⟨none, none, none, none, some [[r1, g1, b1]]⟩], none,
            none⟩)) w)
  | none =>
      let rgb : List Int :=
        if r.isNotNone || g.isNotNone || b.isNotNone then
          [r.orZero, g.orZero, b.orZero]
        else [0, 0, 0]
      okRun (sendCommand env (some ⟨none, none,
        some [⟨none, none, none, none, some [rgb]⟩], none, none⟩)) w

/-- `set_effect`: coerce the effect index (catching `ValueError` and
`TypeError`), assemble optional primary/secondary colors (validating their
white channels only when the corresponding color is present), then validate
speed (0–255), intensity (0–255), palette (0–46) and brightness (0–255) in
that order, and hand the WLED-style segment to `_send_command`. -/
def set_effect (env : Env) (effect_index speed intensity brightness
    palette : PyVal) (r g b wv : PyVal) (hexArg : Option String)
    (r2 g2 b2 w2v : PyVal) (hex2Arg : Option String) (transition : Int) :
    M Status := fun w =>
  match pyToInt effect_index with
  | Except.error _ =>
      validationReturn "Effect index must be a valid integer" w
  | Except.ok fxIdx =>
    -- primary color
    let primaryRes : Except String (Option (List Int)) :=
      match hexArg with
      | some h =>
          (match hexToRgb h with
           | Except.error m =>
              Except.error ("Primary color hex error: " ++ m)
           | Except.ok (rp, gp, bp) => Except.ok (some [rp, gp, bp]))
      | none =>
          if r.isNotNone || g.isNotNone || b.isNotNone then
            Except.ok (some [r.orZero, g.orZero, b.orZero])
          else Except.ok none
    match primaryRes with
    | Except.error m => validationReturn m w
    | Except.ok primary =>
      -- primary white channel, validated only when a primary color exists
      let wCheckFails : Bool :=
        primary.isSome && wv.isNotNone &&
          !(decide (0 ≤ wv.orZero) && decide (wv.orZero ≤ 255))
      if wCheckFails then
        validationReturn "Primary white value must be between 0 and 255" w
      else
        -- secondary color
        let secondaryRes : Except String (Option (List Int)) :=
          match hex2Arg with
          | some h =>
              (match hexToRgb h with
               | Except.error m =>
                  Except.error ("Secondary color hex error: " ++ m)
               | Except.ok (rs, gs, bs) => Except.ok (some [rs, gs, bs]))
          | none =>
              if r2.isNotNone || g2.isNotNone || b2.isNotNone then
                Except.ok (some [r2.orZero, g2.orZero, b2.orZero])
              else Except.ok none
        match secondaryRes with
        | Except.error m => validationReturn m w
        | Except.ok secondary =>
          let w2CheckFails : Bool :=
            secondary.isSome && w2v.isNotNone &&
              !(decide (0 ≤ w2v.orZero) && decide (w2v.orZero ≤ 255))
          if w2CheckFails then
            validationReturn "Secondary white value must be between 0 and 255"
              w
          else
            let colors : List (List Int) :=
              (match primary with | some p => [p] | none => []) ++
              (match secondary with | some s => [s] | none => [])
            -- speed
            if speed.isNotNone &&
                !(decide (0 ≤ speed.orZero) && decide (speed.orZero ≤ 255))
            then validationReturn "Speed must be between 0 and 255" w
            else if intensity.isNotNone &&
                !(decide (0 ≤ intensity.orZero) &&
                  decide (intensity.orZero ≤ 255))
            then validationReturn "Intensity must be between 0 and 255" w
            else if palette.isNotNone &&
                !(decide (0 ≤ palette.orZero) &&
                  decide (palette.orZero ≤ 46))
            then validationReturn "Palette index must be between 0 and 46" w
            else if brightness.isNotNone &&
                !(decide (0 ≤ brightness.orZero) &&
                  decide (brightness.orZero ≤ 255))
            then validationReturn "Brightness must be between 0 and 255" w
            else
              let seg : SegmentData :=
                { fx := some fxIdx
                  sx := match speed with
                        | PyVal.int n => some n
                        | PyVal.none => none
                  ix := match intensity with
                        | PyVal.int n => some n
                        | PyVal.none => none
                  pal := match palette with
                         | PyVal.int n => some n
                         | PyVal.none => none
                  col := if colors.isEmpty then none else some colors }
              let sp : StateParams :=
                { onParam := none
                  bri := match brightness with
                         | PyVal.int n => some n
                         | PyVal.none => none
                  seg := some [seg]
                  ps := none
                  transition := if transition == 0 then none
                                else some transition }
              okRun (sendCommand env (some sp)) w

/-- `set_preset`: `int(preset_id)` catching only `ValueError`, so a `None`
argument lets the `TypeError` escape; then `_send_command({"ps": pid})`. -/
def set_preset (env : Env) (preset_id : PyVal) : M Status := fun w =>
  match preset_id with
  | PyVal.int pid =>
      okRun (sendCommand env (some ⟨none, none, none, some pid, none⟩)) w
  | PyVal.none =>
      (Except.error (PyExc.typeError
        "int() argument must be a number, not NoneType"), w)

/-! ## Trace lemma kit

`TraceOk P w r` says: the run result `r` (obtained from start world `w`)
left the controller configuration unchanged and only appended commands
satisfying `P` to the trace. -/

def TraceOk (P : HCommand → Prop) {β : Type} (w : World) (r : β × World) :
    Prop :=
  r.2.ctrl = w.ctrl ∧ ∃ l, r.2.sent = w.sent ++ l ∧ ∀ cmd ∈ l, P cmd

/-! ## Equation lemmas for symbolic execution -/

/-- What `_get_hyperion_serverinfo` yields for a given round-trip outcome. -/
def serverinfoOutcome : SendResult → Option ServerInfo
  | SendResult.ok resp => if resp.success then resp.info else none
  | _ => none

/-! ## Status shape helpers -/

/-- Does a status dictionary carry all four optional keys (`is_on`,
`preset_id`, `playlist_id`, `brightness`) in addition to `connected` and
`message`? -/
def statusHasAllSixFields (s : Status) : Bool :=
  s.is_on.isSome && s.preset_id.isSome && s.playlist_id.isSome &&
    s.brightness.isSome

/-- The shape the code actually returns: success dictionaries carry all six
keys with `playlist_id = -1`; failure dictionaries carry only `connected`
and `message`. -/
def statusWellShaped (s : Status) : Bool :=
  if s.connected then
    s.is_on.isSome && s.preset_id.isSome && (s.playlist_id == some (-1)) &&
      s.brightness.isSome
  else
    s.is_on.isNone && s.preset_id.isNone && s.playlist_id.isNone &&
      s.brightness.isNone

/-- Did the public call return normally (no exception)? -/
def isOkResult (r : Except PyExc Status × World) : Bool :=
  match r.1 with
  | Except.ok _ => true
  | Except.error _ => false

/-- The status of a normally-returning public call, well shaped? -/
def resultWellShaped (r : Except PyExc Status × World) : Bool :=
  match r.1 with
  | Except.ok s => statusWellShaped s
  | Except.error _ => true

/-! ## Spec-side companion of the reverse preset match (for C7) -/

/-- The claim's "equals the mapped RGB list elementwise": pairwise equality
over the zipped lists (for the protocol's equal-length RGB triples this is
exactly list equality). -/
def rgbMatchesElementwise (rgb actual : List Int) : Bool :=
  (rgb.zip actual).all (fun pr => pr.1 == pr.2)

/-- The preset-match rule as the spec words it: an effect-kind entry matches
when the visible source's componentId is the effect marker and its owner
equals the mapped effect name; a color-kind entry matches when the
componentId is the color marker and the visible source carries a (non-empty)
RGB value that matches the mapped RGB list elementwise. -/
def presetMatchesSpec (v : PrioritySource) (e : Int × PresetAction) : Bool :=
  match e.2 with
  | PresetAction.effect name _ =>
      v.componentId == some "EFFECT" && v.owner == some name
  | PresetAction.color rgb =>
      v.componentId == some "COLOR" &&
      (match v.valueRGB with
       | some actual => !actual.isEmpty && rgbMatchesElementwise rgb actual
       | none => false)

/-- The preset inference as the spec words it: first visible source; first
matching Preset Map entry wins; `-1` when nothing is visible or nothing
matches. -/
def inferActivePresetSpec (priorities : List PrioritySource) : Int :=
  match priorities.find? (fun p => p.visible) with
  | none => -1
  | some v =>
      match WLED_TO_HYPERION_PRESET_MAP.find?
          (fun e => presetMatchesSpec v e) with
      | some e => e.1
      | none => -1

/-! ## Command classifiers and exact-trace helpers -/

def HCommand.isComponentstateCmd : HCommand → Bool
  | HCommand.componentstate _ _ => true
  | _ => false

def HCommand.isEffectCmd : HCommand → Bool
  | HCommand.effect _ _ _ _ => true
  | _ => false

def HCommand.isColorCmd : HCommand → Bool
  | HCommand.color _ _ _ => true
  | _ => false

theorem traceOk_mret {P : HCommand → Prop} {α : Type} (a : α) (w : World) :
    TraceOk P w (mret a w) :=
  ⟨rfl, [], by simp [mret], by simp⟩

theorem traceOk_mthrow {P : HCommand → Prop} {α : Type} (e : PyExc)
    (w : World) : TraceOk P w (mthrow (α := α) e w) :=
  ⟨rfl, [], by simp [mthrow], by simp⟩

theorem traceOk_pair {P : HCommand → Prop} {β : Type} (b : β) (w : World) :
    TraceOk P w ((b, w) : β × World) :=
  ⟨rfl, [], by simp, by simp⟩

theorem traceOk_mbind {P : HCommand → Prop} {α β : Type} {x : M α}
    {f : α → M β} {w : World} (hx : TraceOk P w (x w))
    (hf : ∀ a w', TraceOk P w' (f a w')) : TraceOk P w (mbind x f w) := by
  unfold TraceOk mbind at *
  rcases hq : x w with ⟨r, w1⟩
  rw [hq] at hx
  cases r with
  | ok a =>
    rcases hx with ⟨hc1, l1, hs1, hl1⟩
    have hc1' : w1.ctrl = w.ctrl := hc1
    have hs1' : w1.sent = w.sent ++ l1 := hs1
    rcases hf a w1 with ⟨hc2, l2, hs2, hl2⟩
    exact ⟨hc2.trans hc1', l1 ++ l2,
      hs2.trans (by rw [hs1', List.append_assoc]),
      fun cmd hcmd => (List.mem_append.mp hcmd).elim (hl1 cmd) (hl2 cmd)⟩
  | error e => exact hx

theorem traceOk_mtry {P : HCommand → Prop} {α : Type} {x : M α}
    {h : PyExc → M α} {w : World} (hx : TraceOk P w (x w))
    (hh : ∀ e w', TraceOk P w' (h e w')) : TraceOk P w (mtry x h w) := by
  unfold TraceOk mtry at *
  rcases hq : x w with ⟨r, w1⟩
  rw [hq] at hx
  cases r with
  | ok a => exact hx
  | error e =>
    rcases hx with ⟨hc1, l1, hs1, hl1⟩
    have hc1' : w1.ctrl = w.ctrl := hc1
    have hs1' : w1.sent = w.sent ++ l1 := hs1
    rcases hh e w1 with ⟨hc2, l2, hs2, hl2⟩
    exact ⟨hc2.trans hc1', l1 ++ l2,
      hs2.trans (by rw [hs1', List.append_assoc]),
      fun cmd hcmd => (List.mem_append.mp hcmd).elim (hl1 cmd) (hl2 cmd)⟩

theorem traceOk_pushPair {P : HCommand → Prop} {β : Type} {cmd : HCommand}
    (b : β) (hP : P cmd) (w : World) :
    TraceOk P w ((b, w.push cmd) : β × World) := by
  unfold TraceOk World.push
  refine ⟨rfl, [cmd], rfl, ?_⟩
  intro c hc
  rw [List.mem_singleton.mp hc]
  exact hP

theorem traceOk_sendHyperion {P : HCommand → Prop} {env : Env}
    {cmd : HCommand} (hP : P cmd) (w : World) :
    TraceOk P w (sendHyperion env cmd w) := by
  unfold sendHyperion
  by_cases hip : w.ctrl.ipTruthy = true
  · simp only [hip, if_true]
    split <;> exact traceOk_pushPair _ hP w
  · simp only [Bool.not_eq_true] at hip
    simp only [hip, Bool.false_eq_true, if_false]
    exact traceOk_pair _ w

theorem traceOk_getServerinfo {P : HCommand → Prop} {env : Env}
    (hP : P HCommand.serverinfo) (w : World) :
    TraceOk P w (getServerinfo env w) :=
  traceOk_mtry
    (traceOk_mbind (traceOk_sendHyperion hP w) (fun a w' => traceOk_mret _ w'))
    (fun e w' => traceOk_mret _ w')

theorem traceOk_okRun {P : HCommand → Prop} {f : World → Status × World}
    {w : World} (hf : TraceOk P w (f w)) : TraceOk P w (okRun f w) := by
  unfold TraceOk okRun at *
  rcases hq : f w with ⟨s, w1⟩
  rw [hq] at hf
  exact hf

theorem traceOk_validationReturn {P : HCommand → Prop} (msg : String)
    (w : World) : TraceOk P w (validationReturn msg w) :=
  ⟨rfl, [], by simp [validationReturn], by simp⟩

theorem traceOk_autoPowerOn {P : HCommand → Prop} {env : Env}
    {sp : Option StateParams} {onBefore : Bool}
    (hCS : P (HCommand.componentstate HYPERION_COMPONENT_LEDDEVICE true))
    (w : World) : TraceOk P w (autoPowerOn env sp onBefore w) := by
  simp only [autoPowerOn]
  split
  · exact traceOk_mbind (traceOk_sendHyperion hCS w) (fun a w' => traceOk_mret _ w')
  · exact traceOk_mret _ w

theorem traceOk_processPower {P : HCommand → Prop} {env : Env}
    {p : PowerParam} {onBefore missing : Bool} (hSi : P HCommand.serverinfo)
    (hCS : ∀ b, P (HCommand.componentstate HYPERION_COMPONENT_LEDDEVICE b))
    (w : World) : TraceOk P w (processPower env p onBefore missing w) := by
  simp only [processPower]
  refine traceOk_mbind ?_ (fun target w' =>
    traceOk_mbind (traceOk_sendHyperion (hCS target) w') (fun a w'' => traceOk_mret _ w''))
  cases p with
  | state b => exact traceOk_mret _ w
  | toggle =>
    split
    · exact traceOk_mbind (traceOk_getServerinfo hSi w) (fun i w' => traceOk_mret _ w')
    · exact traceOk_mret _ w

theorem traceOk_processSegment_uniform {P : HCommand → Prop} {env : Env}
    {seg : SegmentData}
    (hEff : ∀ name args pr og, P (HCommand.effect name args pr og))
    (hCol : ∀ rgb pr og, P (HCommand.color rgb pr og)) (w : World) :
    TraceOk P w (processSegment env seg w) := by
  simp only [processSegment]
  split
  · split
    · exact traceOk_mbind (traceOk_sendHyperion (hEff _ _ _ _) w)
        (fun a w' => traceOk_mret _ w')
    · exact traceOk_mret _ w
  · split
    · exact traceOk_mbind (traceOk_sendHyperion (hCol _ _ _) w)
        (fun a w' => traceOk_mret _ w')
    · exact traceOk_mret _ w

theorem traceOk_processSegment_unmapped {P : HCommand → Prop} {env : Env}
    {seg : SegmentData} {k : Int} (hfx : seg.fx = some k)
    (hlk : WLED_TO_HYPERION_EFFECT_MAP.lookup k = none) (w : World) :
    TraceOk P w (processSegment env seg w) := by
  simp only [processSegment, hfx, hlk]
  exact traceOk_mret _ w

theorem traceOk_processPreset_uniform {P : HCommand → Prop} {env : Env}
    {pid : Int}
    (hEff : ∀ name args pr og, P (HCommand.effect name args pr og))
    (hCol : ∀ rgb pr og, P (HCommand.color rgb pr og)) (w : World) :
    TraceOk P w (processPreset env pid w) := by
  simp only [processPreset]
  split
  · exact traceOk_mbind (traceOk_sendHyperion (hEff _ _ _ _) w)
      (fun a w' => traceOk_mret _ w')
  · exact traceOk_mbind (traceOk_sendHyperion (hCol _ _ _) w)
      (fun a w' => traceOk_mret _ w')
  · exact traceOk_mret _ w

theorem traceOk_processParams {P : HCommand → Prop} {env : Env}
    {sp : Option StateParams} {onBefore missing : Bool}
    (hSi : P HCommand.serverinfo)
    (hCS : ∀ b, P (HCommand.componentstate HYPERION_COMPONENT_LEDDEVICE b))
    (hAdj : ∀ n, P (HCommand.adjustment n))
    (hSeg : ∀ p, sp = some p → ∀ s0 rest, p.seg = some (s0 :: rest) →
      ∀ w', TraceOk P w' (processSegment env s0 w'))
    (hPs : ∀ p, sp = some p → ∀ pid, p.ps = some pid →
      ∀ w', TraceOk P w' (processPreset env pid w'))
    (w : World) :
    TraceOk P w (processParams env sp onBefore missing w) := by
  simp only [processParams]
  split
  · exact traceOk_mret _ w
  · rename_i psp
    split
    · refine traceOk_mbind ?_ (fun a w1 => ?_)
      · rcases hon : psp.onParam with _ | pw
        · exact traceOk_mret _ w
        · exact traceOk_processPower hSi hCS w
      refine traceOk_mbind ?_ (fun a w2 => ?_)
      · rcases hbri : psp.bri with _ | bv
        · exact traceOk_mret _ w1
        · exact traceOk_mbind (traceOk_sendHyperion (hAdj _) w1)
            (fun a w' => traceOk_mret _ w')
      refine traceOk_mbind ?_ (fun a w3 => ?_)
      · rcases hseg : psp.seg with _ | ⟨_ | ⟨s0, rest⟩⟩
        · exact traceOk_mret _ w2
        · exact traceOk_mret _ w2
        · exact hSeg psp rfl s0 rest hseg w2
      · rcases hps : psp.ps with _ | pid
        · exact traceOk_mret _ w3
        · exact hPs psp rfl pid hps w3
    · exact traceOk_mret _ w

theorem traceOk_sendCommandBody {P : HCommand → Prop} {env : Env}
    {sp : Option StateParams} (hSi : P HCommand.serverinfo)
    (hCS : ∀ b, P (HCommand.componentstate HYPERION_COMPONENT_LEDDEVICE b))
    (hAdj : ∀ n, P (HCommand.adjustment n))
    (hSeg : ∀ p, sp = some p → ∀ s0 rest, p.seg = some (s0 :: rest) →
      ∀ w', TraceOk P w' (processSegment env s0 w'))
    (hPs : ∀ p, sp = some p → ∀ pid, p.ps = some pid →
      ∀ w', TraceOk P w' (processPreset env pid w'))
    (w : World) : TraceOk P w (sendCommandBody env sp w) := by
  simp only [sendCommandBody]
  split
  · refine traceOk_mbind (traceOk_getServerinfo hSi w) (fun infoBefore w1 => ?_)
    simp only [afterSnapshot]
    refine traceOk_mbind (traceOk_autoPowerOn (hCS true) w1) (fun a w2 => ?_)
    refine traceOk_mbind (traceOk_processParams hSi hCS hAdj hSeg hPs w2)
      (fun a w3 => ?_)
    simp only [finStage]
    refine traceOk_mbind (traceOk_getServerinfo hSi w3) (fun finalInfo w4 => ?_)
    rcases finalInfo with _ | fi
    · exact traceOk_mthrow _ w4
    · exact traceOk_mret _ w4
  · exact traceOk_pair _ w

theorem traceOk_sendCommand {P : HCommand → Prop} {env : Env}
    {sp : Option StateParams} (hSi : P HCommand.serverinfo)
    (hCS : ∀ b, P (HCommand.componentstate HYPERION_COMPONENT_LEDDEVICE b))
    (hAdj : ∀ n, P (HCommand.adjustment n))
    (hSeg : ∀ p, sp = some p → ∀ s0 rest, p.seg = some (s0 :: rest) →
      ∀ w', TraceOk P w' (processSegment env s0 w'))
    (hPs : ∀ p, sp = some p → ∀ pid, p.ps = some pid →
      ∀ w', TraceOk P w' (processPreset env pid w'))
    (w : World) : TraceOk P w (sendCommand env sp w) := by
  have hb : TraceOk P w (sendCommandBody env sp w) :=
    traceOk_sendCommandBody hSi hCS hAdj hSeg hPs w
  simp only [sendCommand]
  rcases hq : sendCommandBody env sp w with ⟨r, w1⟩
  rw [hq] at hb
  cases r with
  | ok s => exact hb
  | error e => exact hb

theorem World.push_ctrl (w : World) (cmd : HCommand) :
    (w.push cmd).ctrl = w.ctrl := rfl

theorem World.push_idx (w : World) (cmd : HCommand) :
    (w.push cmd).idx = w.idx + 1 := rfl

theorem World.push_sent (w : World) (cmd : HCommand) :
    (w.push cmd).sent = w.sent ++ [cmd] := rfl

theorem sendHyperion_snd {env : Env} {cmd : HCommand} {w : World}
    (hip : w.ctrl.ipTruthy = true) :
    (sendHyperion env cmd w).2 = w.push cmd := by
  unfold sendHyperion
  simp only [hip, if_true]
  rcases env w.idx <;> rfl

theorem sendHyperion_ok {env : Env} {cmd : HCommand} {w : World}
    {resp : Response} (hip : w.ctrl.ipTruthy = true)
    (h : env w.idx = SendResult.ok resp) :
    sendHyperion env cmd w = (Except.ok resp, w.push cmd) := by
  unfold sendHyperion
  simp only [hip, if_true, h]

theorem getServerinfo_run {env : Env} {w : World}
    (hip : w.ctrl.ipTruthy = true) :
    getServerinfo env w =
      (Except.ok (serverinfoOutcome (env w.idx)), w.push HCommand.serverinfo) := by
  unfold getServerinfo mtry mbind mret
  unfold sendHyperion
  simp only [hip, if_true]
  rcases env w.idx <;> rfl

theorem sendCommand_noip {env : Env} {sp : Option StateParams} {w : World}
    (hip : w.ctrl.ipTruthy = false) :
    sendCommand env sp w = (failureStatus "No Hyperion IP configured", w) := by
  unfold sendCommand sendCommandBody
  simp only [hip, Bool.false_eq_true, if_false]
  rfl

theorem isOk_validationReturn {msg : String} {w : World} :
    isOkResult (validationReturn msg w) = true := rfl

theorem isOk_okRun {f : World → Status × World} {w : World} :
    isOkResult (okRun f w) = true := by
  unfold isOkResult okRun
  rcases f w with ⟨s, w'⟩
  rfl

/-! ## Well-shapedness of `_send_command` results -/

theorem mbind_fst_ok {α β : Type} {x : M α} {f : α → M β} {w : World}
    {b : β} (h : (mbind x f w).1 = Except.ok b) :
    ∃ a w1, x w = (Except.ok a, w1) ∧ (f a w1).1 = Except.ok b := by
  unfold mbind at h
  rcases hq : x w with ⟨r, w1⟩
  rw [hq] at h
  cases r with
  | ok a => exact ⟨a, w1, rfl, h⟩
  | error e => exact absurd h (by simp)

theorem sendCommandBody_ok_shape {env : Env} {sp : Option StateParams}
    {w : World} {s : Status} (h : (sendCommandBody env sp w).1 = Except.ok s) :
    ∃ fi, s = buildFinalStatus fi := by
  rw [show sendCommandBody env sp w =
      (if w.ctrl.ipTruthy = true then _ else _) from rfl] at h
  split at h
  · obtain ⟨infoBefore, w1, h1, h⟩ := mbind_fst_ok h
    rw [show afterSnapshot env sp infoBefore w1 =
        (mbind (autoPowerOn env sp _) (fun _ =>
          mbind (processParams env sp _ _) (fun _ => finStage env))) w1
      from rfl] at h
    obtain ⟨a2, w2, h2, h⟩ := mbind_fst_ok h
    obtain ⟨a3, w3, h3, h⟩ := mbind_fst_ok h
    rw [show finStage env w3 =
        (mbind (getServerinfo env) (fun finalInfo =>
          match finalInfo with
          | none => mthrow (PyExc.connectionError
              "Failed to get Hyperion serverinfo after command execution.")
          | some fi => mret (buildFinalStatus fi))) w3 from rfl] at h
    obtain ⟨finalInfo, w4, h4, h⟩ := mbind_fst_ok h
    rcases finalInfo with _ | fi
    · exact absurd h (by simp [mthrow])
    · refine ⟨fi, ?_⟩
      have h' : Except.ok (ε := PyExc) (buildFinalStatus fi) = Except.ok s := h
      exact (Except.ok.inj h').symm
  · exact absurd h (by simp)

theorem statusWellShaped_buildFinalStatus (fi : ServerInfo) :
    statusWellShaped (buildFinalStatus fi) = true := by
  simp [statusWellShaped, buildFinalStatus]

theorem statusWellShaped_excStatus (e : PyExc) :
    statusWellShaped (excStatus e) = true := by
  cases e <;> rfl

theorem statusWellShaped_sendCommand (env : Env) (sp : Option StateParams)
    (w : World) : statusWellShaped (sendCommand env sp w).1 = true := by
  unfold sendCommand
  rcases hq : sendCommandBody env sp w with ⟨r, w1⟩
  cases r with
  | ok s =>
    obtain ⟨fi, hfi⟩ := sendCommandBody_ok_shape (by rw [hq])
    simp only [hfi]
    exact statusWellShaped_buildFinalStatus fi
  | error e => exact statusWellShaped_excStatus e

/-! ## Controller-preservation helpers -/

theorem ctrl_sendCommand (env : Env) (sp : Option StateParams) (w : World) :
    ((sendCommand env sp w).2).ctrl = w.ctrl :=
  (traceOk_sendCommand (P := fun _ => True) trivial (fun _ => trivial)
    (fun _ => trivial)
    (fun _ _ _ _ _ w' => traceOk_processSegment_uniform
      (fun _ _ _ _ => trivial) (fun _ _ _ => trivial) w')
    (fun _ _ _ _ w' => traceOk_processPreset_uniform
      (fun _ _ _ _ => trivial) (fun _ _ _ => trivial) w') w).1

theorem ctrl_okRun_sendCommand (env : Env) (sp : Option StateParams)
    (w : World) : ((okRun (sendCommand env sp) w).2).ctrl = w.ctrl := by
  unfold okRun
  rcases hq : sendCommand env sp w with ⟨s, w'⟩
  have h := ctrl_sendCommand env sp w
  rw [hq] at h
  exact h

theorem presetEntryMatches_eq_spec (v : PrioritySource)
    (e : Int × PresetAction) :
    presetEntryMatches v e = presetMatchesSpec v e := by
  rcases e with ⟨pid, act⟩
  cases act with
  | effect name args => rfl
  | color rgb =>
    simp only [presetEntryMatches, presetMatchesSpec]
    rcases v.valueRGB with _ | actual
    · rfl
    · rcases actual with _ | ⟨a, l⟩
      · rfl
      · simp [rgbMatchesElementwise]

theorem presetLoop_eq_find (v : PrioritySource)
    (pmap : List (Int × PresetAction)) :
    presetLoop v pmap =
      (match pmap.find? (fun e => presetEntryMatches v e) with
       | some e => e.1
       | none => -1) := by
  induction pmap with
  | nil => rfl
  | cons e rest ih =>
    by_cases h : presetEntryMatches v e = true
    · simp [presetLoop, List.find?, h]
    · simp only [Bool.not_eq_true] at h
      simp [presetLoop, List.find?, h, ih]

/-! ## Claim theorems -/

/-- C7: the status reconciler's preset inference selects the first visible
prioritized source (`-1` when none is visible) and then returns the first
Preset Map entry matching it — an effect-kind entry by effect marker plus
owner name, a color-kind entry by color marker plus elementwise RGB
agreement — with `-1` when no entry matches.  Stated as: the code's loop
equals the spec-worded first-match description, plus the generic
loop-equals-first-match and condition-equivalence facts. -/
theorem claim_C7_preset_inference :
    (∀ prios, inferActivePreset prios = inferActivePresetSpec prios) ∧
    (∀ prios, prios.find? (fun p => p.visible) = none →
      inferActivePreset prios = -1) ∧
    (∀ v pmap, presetLoop v pmap =
      (match pmap.find? (fun e => presetEntryMatches v e) with
       | some e => e.1
       | none => -1)) ∧
    (∀ v e, presetEntryMatches v e = presetMatchesSpec v e) := by
  refine ⟨?_, ?_, presetLoop_eq_find, presetEntryMatches_eq_spec⟩
  · intro prios
    unfold inferActivePreset inferActivePresetSpec
    rcases hv : prios.find? (fun p => p.visible) with _ | v <;> rw [hv]
    have hpred : (fun e => presetEntryMatches v e) =
        (fun e => presetMatchesSpec v e) :=
      funext (fun e => presetEntryMatches_eq_spec v e)
    have h2 : presetLoop v WLED_TO_HYPERION_PRESET_MAP =
        (match WLED_TO_HYPERION_PRESET_MAP.find?
            (fun e => presetMatchesSpec v e) with
         | some e => e.1
         | none => -1) := by
      rw [presetLoop_eq_find, hpred]
    exact h2
  · intro prios hnone
    unfold inferActivePreset
    rw [hnone]

/-- C8: with no target address configured, `check_wled_status` returns a
`connected = false` status whose message is `"No Hyperion IP configured"`,
leaves the world untouched, and performs no transport call (the command
trace does not grow). -/
theorem claim_C8_no_ip_no_network (env : Env) (w : World)
    (hip : w.ctrl.ipTruthy = false) :
    check_wled_status env w =
      (Except.ok (failureStatus "No Hyperion IP configured"), w) ∧
    (failureStatus "No Hyperion IP configured").connected = false ∧
    ((check_wled_status env w).2).sent = w.sent ∧
    ((check_wled_status env w).2).idx = w.idx := by
  have h : check_wled_status env w =
      (Except.ok (failureStatus "No Hyperion IP configured"), w) := by
    unfold check_wled_status okRun
    rw [sendCommand_noip hip]
  exact ⟨h, rfl, by rw [h], by rw [h]⟩

/-- Witness for C8 at a concrete controller with no address. -/
theorem claim_C8_witness :
    check_wled_status (fun _ => SendResult.timeout)
      ⟨LEDController.init none HYPERION_DEFAULT_PORT, 0, []⟩ =
      (Except.ok (failureStatus "No Hyperion IP configured"),
        ⟨LEDController.init none HYPERION_DEFAULT_PORT, 0, []⟩) :=
  (claim_C8_no_ip_no_network (fun _ => SendResult.timeout)
    ⟨LEDController.init none HYPERION_DEFAULT_PORT, 0, []⟩ (by decide)).1

/-- C10: every public operation leaves the controller configuration
(`ip_address`, `port`, `priority`, `auth_token`, `origin`) unchanged on all
paths; only `set_ip` and `set_auth_token` mutate it, and `set_ip` without a
port argument leaves the port unchanged. -/
theorem claim_C10_config_frame :
    (∀ env w, ((check_wled_status env w).2).ctrl = w.ctrl) ∧
    (∀ env v w, ((set_brightness env v w).2).ctrl = w.ctrl) ∧
    (∀ env v w, ((set_power env v w).2).ctrl = w.ctrl) ∧
    (∀ env r g b wv hexArg w,
      ((set_color env r g b wv hexArg w).2).ctrl = w.ctrl) ∧
    (∀ env ei spd it br pal r g b wv hexArg r2 g2 b2 w2v hex2Arg tr w,
      ((set_effect env ei spd it br pal r g b wv hexArg r2 g2 b2 w2v hex2Arg
        tr w).2).ctrl = w.ctrl) ∧
    (∀ env v w, ((set_preset env v w).2).ctrl = w.ctrl) ∧
    (∀ c ip, LEDController.set_ip c ip none = { c with ip_address := some ip }) ∧
    (∀ c ip p, LEDController.set_ip c ip (some p) =
      { c with ip_address := some ip, port := p }) ∧
    (∀ c t, LEDController.set_auth_token c t = { c with auth_token := some t }) := by
  refine ⟨?_, ?_, ?_, ?_, ?_, ?_, ?_, ?_, ?_⟩
  · intro env w
    unfold check_wled_status
    exact ctrl_okRun_sendCommand env none w
  · intro env v w
    simp only [set_brightness]
    repeat' split
    all_goals first
      | rfl
      | exact ctrl_okRun_sendCommand _ _ _
  · intro env v w
    simp only [set_power]
    repeat' split
    all_goals first
      | rfl
      | exact ctrl_okRun_sendCommand _ _ _
  · intro env r g b wv hexArg w
    simp only [set_color]
    repeat' split
    all_goals first
      | rfl
      | exact ctrl_okRun_sendCommand _ _ _
  · intro env ei spd it br pal r g b wv hexArg r2 g2 b2 w2v hex2Arg tr w
    simp only [set_effect]
    repeat' split
    all_goals first
      | rfl
      | exact ctrl_okRun_sendCommand _ _ _
  · intro env v w
    simp only [set_preset]
    repeat' split
    all_goals first
      | rfl
      | exact ctrl_okRun_sendCommand _ _ _
  · intro c ip
    rfl
  · intro c ip p
    rfl
  · intro c t
    rfl

/-! ## Brightness round-trip (C5) -/

set_option maxRecDepth 4000 in
theorem brightness_roundtrip_fin :
    ∀ n : Fin 256,
      (hyperionToWledBrightness (wledToHyperionBrightness ((n : Nat) : Int)) -
        ((n : Nat) : Int)).natAbs ≤ 1 := by decide

/-- C5: for every b in [0,255], rescaling down to the 0–100 scale (round to
nearest, clamp) and back up to 0–255 (round to nearest) lands within 1 of b;
moreover 0 ↦ 0 ↦ 0 and 255 ↦ 100 ↦ 255. -/
theorem claim_C5_brightness_roundtrip (b : Int) (h0 : 0 ≤ b)
    (h255 : b ≤ 255) :
    (hyperionToWledBrightness (wledToHyperionBrightness b) - b).natAbs ≤ 1 ∧
    wledToHyperionBrightness 0 = 0 ∧
    hyperionToWledBrightness 0 = 0 ∧
    wledToHyperionBrightness 255 = 100 ∧
    hyperionToWledBrightness 100 = 255 := by
  refine ⟨?_, by decide, by decide, by decide, by decide⟩
  have hn : b.toNat < 256 := by omega
  have hkey := brightness_roundtrip_fin ⟨b.toNat, hn⟩
  have hb : ((b.toNat : Nat) : Int) = b := Int.toNat_of_nonneg h0
  simpa [hb] using hkey

/-- Witness for C5 at b = 10 (the half-even rounding case 25.5 ↦ 26). -/
theorem claim_C5_witness :
    (hyperionToWledBrightness (wledToHyperionBrightness 10) - 10).natAbs ≤ 1 ∧
    wledToHyperionBrightness 0 = 0 ∧
    hyperionToWledBrightness 0 = 0 ∧
    wledToHyperionBrightness 255 = 100 ∧
    hyperionToWledBrightness 100 = 255 :=
  claim_C5_brightness_roundtrip 10 (by decide) (by decide)

/-! ## C1 / C2: exception behaviour and status shape of the public surface -/

theorem resultWellShaped_okRun_sendCommand (env : Env)
    (sp : Option StateParams) (w : World) :
    resultWellShaped (okRun (sendCommand env sp) w) = true := by
  unfold okRun resultWellShaped
  rcases hq : sendCommand env sp w with ⟨s, w'⟩
  have h := statusWellShaped_sendCommand env sp w
  rw [hq] at h
  exact h

/-- `set_effect` returns normally (no exception) for every argument
combination in the model. -/
theorem isOk_set_effect (env : Env) (ei spd it br pal r g b wv : PyVal)
    (hexArg : Option String) (r2 g2 b2 w2v : PyVal)
    (hex2Arg : Option String) (tr : Int) (w : World) :
    isOkResult (set_effect env ei spd it br pal r g b wv hexArg r2 g2 b2
      w2v hex2Arg tr w) = true := by
  simp only [set_effect]
  repeat' split
  all_goals first
    | rfl
    | exact isOk_okRun

theorem exists_of_isOk {r : Except PyExc Status × World}
    (h : isOkResult r = true) : ∃ s w', r = (Except.ok s, w') := by
  rcases r with ⟨x, w'⟩
  cases x with
  | ok s => exact ⟨s, w', rfl⟩
  | error e => exact absurd h (by simp [isOkResult])

/-- C1 counterexample: `set_preset(None)` lets a `TypeError` escape to the
caller (only `ValueError` is caught around `int(preset_id)`), so the public
surface does raise for a `None` argument. -/
theorem claim_C1_counterexample :
    set_preset (fun _ => SendResult.timeout) PyVal.none
      ⟨⟨some "hyperion-host", 19444, 50, none, "LEDController"⟩, 0, []⟩ =
    (Except.error (PyExc.typeError
        "int() argument must be a number, not NoneType"),
      ⟨⟨some "hyperion-host", 19444, 50, none, "LEDController"⟩, 0, []⟩) :=
  rfl

/-- C1 amended: for arguments of the supported kinds (integers where the
source compares or coerces; any combination of present/absent optional
arguments), every public operation returns a structured status normally —
no exception reaches the caller — for every downstream behaviour; the
exception is `None` where an integer is compared (`set_brightness`) or
coerced with only `ValueError` caught (`set_preset`), as the counterexample
shows. -/
theorem claim_C1_no_raise_amended (env : Env) (w : World) :
    (isOkResult (check_wled_status env w) = true) ∧
    (∀ n : Int, isOkResult (set_brightness env (PyVal.int n) w) = true) ∧
    (∀ v : PyVal, isOkResult (set_power env v w) = true) ∧
    (∀ r g b wv hexArg, isOkResult (set_color env r g b wv hexArg w) = true) ∧
    (∀ ei spd it br pal r g b wv hexArg r2 g2 b2 w2v hex2Arg tr,
      isOkResult (set_effect env ei spd it br pal r g b wv hexArg r2 g2 b2
        w2v hex2Arg tr w) = true) ∧
    (∀ n : Int, isOkResult (set_preset env (PyVal.int n) w) = true) := by
  refine ⟨?_, ?_, ?_, ?_, ?_, ?_⟩
  · unfold check_wled_status
    exact isOk_okRun
  · intro n
    simp only [set_brightness]
    repeat' split
    all_goals first
      | rfl
      | exact isOk_okRun
      | simp_all [pyCheckRange]
  · intro v
    simp only [set_power]
    repeat' split
    all_goals first
      | rfl
      | exact isOk_okRun
  · intro r g b wv hexArg
    simp only [set_color]
    repeat' split
    all_goals first
      | rfl
      | exact isOk_okRun
  · intro ei spd it br pal r g b wv hexArg r2 g2 b2 w2v hex2Arg tr
    exact isOk_set_effect env ei spd it br pal r g b wv hexArg r2 g2 b2 w2v
      hex2Arg tr w
  · intro n
    simp only [set_preset]
    exact isOk_okRun

/-- C2 counterexample: a failure return carries only `connected` and
`message` — `set_brightness(300)` returns the two-key validation dictionary,
not the six-field Normalized Status shape. -/
theorem claim_C2_counterexample :
    (set_brightness (fun _ => SendResult.timeout) (PyVal.int 300)
      ⟨⟨some "hyperion-host", 19444, 50, none, "LEDController"⟩, 0, []⟩).1 =
      Except.ok (failureStatus "Brightness must be between 0 and 255") ∧
    statusHasAllSixFields
      (failureStatus "Brightness must be between 0 and 255") = false :=
  ⟨rfl, rfl⟩

/-- C2 amended: every normally-returned status is well shaped — a success
status (`connected = true`) carries all six fields with
`playlist_id = -1`; a failure status (`connected = false`) carries only
`connected` and `message` (the other four keys are absent). -/
theorem claim_C2_status_shape_amended (env : Env) (w : World) :
    (resultWellShaped (check_wled_status env w) = true) ∧
    (∀ v, resultWellShaped (set_brightness env v w) = true) ∧
    (∀ v, resultWellShaped (set_power env v w) = true) ∧
    (∀ r g b wv hexArg,
      resultWellShaped (set_color env r g b wv hexArg w) = true) ∧
    (∀ ei spd it br pal r g b wv hexArg r2 g2 b2 w2v hex2Arg tr,
      resultWellShaped (set_effect env ei spd it br pal r g b wv hexArg r2
        g2 b2 w2v hex2Arg tr w) = true) ∧
    (∀ v, resultWellShaped (set_preset env v w) = true) := by
  refine ⟨?_, ?_, ?_, ?_, ?_, ?_⟩
  · unfold check_wled_status
    exact resultWellShaped_okRun_sendCommand env none w
  · intro v
    simp only [set_brightness]
    repeat' split
    all_goals first
      | rfl
      | exact resultWellShaped_okRun_sendCommand _ _ _
  · intro v
    simp only [set_power]
    repeat' split
    all_goals first
      | rfl
      | exact resultWellShaped_okRun_sendCommand _ _ _
  · intro r g b wv hexArg
    simp only [set_color]
    repeat' split
    all_goals first
      | rfl
      | exact resultWellShaped_okRun_sendCommand _ _ _
  · intro ei spd it br pal r g b wv hexArg r2 g2 b2 w2v hex2Arg tr
    simp only [set_effect]
    repeat' split
    all_goals first
      | rfl
      | exact resultWellShaped_okRun_sendCommand _ _ _
  · intro v
    simp only [set_preset]
    repeat' split
    all_goals first
      | rfl
      | exact resultWellShaped_okRun_sendCommand _ _ _

theorem traceOk_mono {P Q : HCommand → Prop} {β : Type} {w : World}
    {r : β × World} (hpq : ∀ c, P c → Q c) (h : TraceOk P w r) :
    TraceOk Q w r := by
  rcases h with ⟨hc, l, hs, hl⟩
  exact ⟨hc, l, hs, fun cmd hcmd => hpq cmd (hl cmd hcmd)⟩

theorem filter_of_traceOk {p : HCommand → Bool} {β : Type} {w : World}
    {r : β × World} (h : TraceOk (fun c => p c = false) w r) :
    (r.2).sent.filter p = w.sent.filter p := by
  rcases h with ⟨-, l, hs, hl⟩
  rw [hs, List.filter_append]
  have hnil : l.filter p = [] := by
    rw [List.filter_eq_nil_iff]
    intro a ha
    simp [hl a ha]
  rw [hnil, List.append_nil]

theorem sent_of_traceOk {β : Type} {w : World} {r : β × World}
    (h : TraceOk (fun _ => True) w r) :
    ∃ rest, (r.2).sent = w.sent ++ rest := by
  rcases h with ⟨-, l, hs, -⟩
  exact ⟨l, hs⟩

theorem okRun_snd (f : World → Status × World) (w : World) :
    (okRun f w).2 = (f w).2 := by
  unfold okRun
  rcases f w with ⟨s, w'⟩
  rfl

theorem sendCommand_snd (env : Env) (sp : Option StateParams) (w : World) :
    (sendCommand env sp w).2 = (sendCommandBody env sp w).2 := by
  unfold sendCommand
  rcases sendCommandBody env sp w with ⟨r, w'⟩
  cases r <;> rfl

theorem okRun_exists (f : World → Status × World) (w : World) :
    ∃ s w', okRun f w = (Except.ok s, w') := by
  unfold okRun
  rcases f w with ⟨s, w'⟩
  exact ⟨s, w', rfl⟩

theorem mbind_assoc {α β γ : Type} (x : M α) (f : α → M β) (g : β → M γ) :
    mbind (mbind x f) g = mbind x (fun a => mbind (f a) g) := by
  funext w
  unfold mbind
  rcases x w with ⟨r, w1⟩
  cases r with
  | ok a =>
    rcases f a w1 with ⟨r2, w2⟩
    cases r2 <;> rfl
  | error e => rfl

theorem mbind_mret {α β : Type} (a : α) (f : α → M β) :
    mbind (mret a) f = f a := by
  funext w
  rfl

/-- One counted send then an arbitrary continuation that issues no command
matching `p`: the `p`-filtered trace grows by exactly `[cmd]`. -/
theorem filter_mbind_send {p : HCommand → Bool} {β : Type} {env : Env}
    {cmd : HCommand} {k : Response → M β} {w : World} (hp : p cmd = true)
    (hip : w.ctrl.ipTruthy = true)
    (hk : ∀ a w', TraceOk (fun c => p c = false) w' (k a w')) :
    ((mbind (sendHyperion env cmd) k w).2).sent.filter p =
      w.sent.filter p ++ [cmd] := by
  unfold mbind
  rcases hq : sendHyperion env cmd w with ⟨r, w1⟩
  have hw1 : w1 = w.push cmd := by
    have h : (sendHyperion env cmd w).2 = w.push cmd := sendHyperion_snd hip
    rw [hq] at h
    exact h
  have hpush : (w.push cmd).sent.filter p = w.sent.filter p ++ [cmd] := by
    rw [World.push_sent, List.filter_append]
    simp [hp]
  cases r with
  | ok a =>
    have h2 := filter_of_traceOk (p := p) (hk a w1)
    rw [h2, hw1, hpush]
  | error e =>
    rw [hw1, hpush]

/-- One send then an arbitrary continuation: the trace extends the prefix
`w.sent ++ [cmd]`. -/
theorem sent_mbind_send {β : Type} {env : Env} {cmd : HCommand}
    {k : Response → M β} {w : World} (hip : w.ctrl.ipTruthy = true)
    (hk : ∀ a w', TraceOk (fun _ => True) w' (k a w')) :
    ∃ rest, ((mbind (sendHyperion env cmd) k w).2).sent =
      w.sent ++ [cmd] ++ rest := by
  unfold mbind
  rcases hq : sendHyperion env cmd w with ⟨r, w1⟩
  have hw1 : w1 = w.push cmd := by
    have h : (sendHyperion env cmd w).2 = w.push cmd := sendHyperion_snd hip
    rw [hq] at h
    exact h
  cases r with
  | ok a =>
    obtain ⟨rest, hrest⟩ := sent_of_traceOk (hk a w1)
    refine ⟨rest, ?_⟩
    rw [hrest, hw1, World.push_sent]
  | error e =>
    refine ⟨[], ?_⟩
    rw [hw1, World.push_sent, List.append_nil]

theorem PyVal.isNotNone_iff (v : PyVal) :
    v.isNotNone = true ↔ v ≠ PyVal.none := by
  cases v <;> simp [PyVal.isNotNone]

/-- C9 counterexample: `set_effect(2, w=300)` with no primary color does NOT
fail validation — the out-of-range white channel is never checked, the call
reaches the network (two commands are issued against a timing-out
downstream) and returns a connection-failure status, not a validation
failure. -/
theorem claim_C9_counterexample :
    set_effect (fun _ => SendResult.timeout) (PyVal.int 2) PyVal.none
      PyVal.none PyVal.none PyVal.none PyVal.none PyVal.none PyVal.none
      (PyVal.int 300) none PyVal.none PyVal.none PyVal.none PyVal.none none 0
      ⟨⟨some "hyperion-host", 19444, 50, none, "LEDController"⟩, 0, []⟩ =
    (Except.ok (failureStatus
        "Cannot connect to Hyperion: Timeout communicating with Hyperion at hyperion-host:19444"),
      ⟨⟨some "hyperion-host", 19444, 50, none, "LEDController"⟩, 2,
        [HCommand.serverinfo,
         HCommand.componentstate HYPERION_COMPONENT_LEDDEVICE true]⟩) := rfl

set_option maxHeartbeats 2000000 in
/-- C9 amended: in `set_effect`, speed, intensity, palette and brightness
are each validated into their ranges whenever present, before any network
activity, independently of the other parameters; the white channels are
validated only when the corresponding (primary/secondary) color argument is
supplied — an out-of-range white channel without a color is silently
ignored, as the counterexample shows.  A failed validation returns a
`connected = false` status with the world (hence the command trace)
untouched. -/
theorem claim_C9_validation_amended (env : Env) (w : World)
    (ei spd it br pal r g b wv : PyVal) (hexArg : Option String)
    (r2 g2 b2 w2v : PyVal) (hex2Arg : Option String) (tr : Int) :
    (∀ n : Int, spd = PyVal.int n → ¬(0 ≤ n ∧ n ≤ 255) →
      ∃ s, set_effect env ei spd it br pal r g b wv hexArg r2 g2 b2 w2v
        hex2Arg tr w = (Except.ok s, w) ∧ s.connected = false) ∧
    (∀ n : Int, it = PyVal.int n → ¬(0 ≤ n ∧ n ≤ 255) →
      ∃ s, set_effect env ei spd it br pal r g b wv hexArg r2 g2 b2 w2v
        hex2Arg tr w = (Except.ok s, w) ∧ s.connected = false) ∧
    (∀ n : Int, pal = PyVal.int n → ¬(0 ≤ n ∧ n ≤ 46) →
      ∃ s, set_effect env ei spd it br pal r g b wv hexArg r2 g2 b2 w2v
        hex2Arg tr w = (Except.ok s, w) ∧ s.connected = false) ∧
    (∀ n : Int, br = PyVal.int n → ¬(0 ≤ n ∧ n ≤ 255) →
      ∃ s, set_effect env ei spd it br pal r g b wv hexArg r2 g2 b2 w2v
        hex2Arg tr w = (Except.ok s, w) ∧ s.connected = false) ∧
    (∀ n : Int, wv = PyVal.int n → ¬(0 ≤ n ∧ n ≤ 255) →
      (hexArg ≠ none ∨ r ≠ PyVal.none ∨ g ≠ PyVal.none ∨ b ≠ PyVal.none) →
      ∃ s, set_effect env ei spd it br pal r g b wv hexArg r2 g2 b2 w2v
        hex2Arg tr w = (Except.ok s, w) ∧ s.connected = false) ∧
    (∀ n : Int, w2v = PyVal.int n → ¬(0 ≤ n ∧ n ≤ 255) →
      (hex2Arg ≠ none ∨ r2 ≠ PyVal.none ∨ g2 ≠ PyVal.none ∨ b2 ≠ PyVal.none) →
      ∃ s, set_effect env ei spd it br pal r g b wv hexArg r2 g2 b2 w2v
        hex2Arg tr w = (Except.ok s, w) ∧ s.connected = false) := by
  refine ⟨?_, ?_, ?_, ?_, ?_, ?_⟩
  · intro n hn hrange
    subst hn
    have hr : n < 0 ∨ 255 < n := by omega
    clear hrange
    simp only [set_effect]
    repeat' split
    all_goals first
      | exact ⟨_, rfl, rfl⟩
      | (exfalso; simp_all [PyVal.isNotNone, PyVal.orZero]; try omega)
  · intro n hn hrange
    subst hn
    have hr : n < 0 ∨ 255 < n := by omega
    clear hrange
    simp only [set_effect]
    repeat' split
    all_goals first
      | exact ⟨_, rfl, rfl⟩
      | (exfalso; simp_all [PyVal.isNotNone, PyVal.orZero]; try omega)
  · intro n hn hrange
    subst hn
    have hr : n < 0 ∨ 46 < n := by omega
    clear hrange
    simp only [set_effect]
    repeat' split
    all_goals first
      | exact ⟨_, rfl, rfl⟩
      | (exfalso; simp_all [PyVal.isNotNone, PyVal.orZero]; try omega)
  · intro n hn hrange
    subst hn
    have hr : n < 0 ∨ 255 < n := by omega
    clear hrange
    simp only [set_effect]
    repeat' split
    all_goals first
      | exact ⟨_, rfl, rfl⟩
      | (exfalso; simp_all [PyVal.isNotNone, PyVal.orZero]; try omega)
  · intro n hn hrange hprim
    subst hn
    have hr : n < 0 ∨ 255 < n := by omega
    clear hrange
    rcases hexArg with _ | hx
    · have hcond : (r.isNotNone || g.isNotNone || b.isNotNone) = true := by
        rcases hprim with h | h | h | h
        · exact absurd rfl h
        · cases r <;> simp_all [PyVal.isNotNone]
        · cases g <;> simp_all [PyVal.isNotNone]
        · cases b <;> simp_all [PyVal.isNotNone]
      simp only [set_effect, hcond, if_true]
      repeat' split
      all_goals first
        | exact ⟨_, rfl, rfl⟩
        | (exfalso; simp_all [PyVal.isNotNone, PyVal.orZero]; try omega)
    · rcases hres : hexToRgb hx with m | t
      · simp only [set_effect, hres]
        repeat' split
        all_goals first
          | exact ⟨_, rfl, rfl⟩
          | (exfalso; simp_all [PyVal.isNotNone, PyVal.orZero]; try omega)
      · simp only [set_effect, hres]
        repeat' split
        all_goals first
          | exact ⟨_, rfl, rfl⟩
          | (exfalso; simp_all [PyVal.isNotNone, PyVal.orZero]; try omega)
  · intro n hn hrange hsec
    subst hn
    have hr : n < 0 ∨ 255 < n := by omega
    clear hrange
    rcases hex2Arg with _ | hx2
    · have hcond : (r2.isNotNone || g2.isNotNone || b2.isNotNone) = true := by
        rcases hsec with h | h | h | h
        · exact absurd rfl h
        · cases r2 <;> simp_all [PyVal.isNotNone]
        · cases g2 <;> simp_all [PyVal.isNotNone]
        · cases b2 <;> simp_all [PyVal.isNotNone]
      simp only [set_effect, hcond, if_true]
      repeat' split
      all_goals first
        | exact ⟨_, rfl, rfl⟩
        | (exfalso; simp_all [PyVal.isNotNone, PyVal.orZero]; try omega)
    · rcases hres : hexToRgb hx2 with m | t
      · simp only [set_effect, hres]
        repeat' split
        all_goals first
          | exact ⟨_, rfl, rfl⟩
          | (exfalso; simp_all [PyVal.isNotNone, PyVal.orZero]; try omega)
      · simp only [set_effect, hres]
        repeat' split
        all_goals first
          | exact ⟨_, rfl, rfl⟩
          | (exfalso; simp_all [PyVal.isNotNone, PyVal.orZero]; try omega)

/-! ## Run equations for the command body -/

theorem body_run {env : Env} {sp : Option StateParams} {w : World}
    (hip : w.ctrl.ipTruthy = true) :
    sendCommandBody env sp w =
      afterSnapshot env sp (serverinfoOutcome (env w.idx))
        (w.push HCommand.serverinfo) := by
  simp only [sendCommandBody, hip, if_true]
  unfold mbind
  rw [getServerinfo_run hip]

theorem autoPowerOn_of_powerControl {env : Env} {sp : Option StateParams}
    {onBefore : Bool} (h : isPowerControlCommand sp = true) :
    autoPowerOn env sp onBefore = mret () := by
  unfold autoPowerOn
  rw [h]
  simp

theorem traceOk_finStage {P : HCommand → Prop} {env : Env}
    (hSi : P HCommand.serverinfo) (w : World) :
    TraceOk P w (finStage env w) := by
  simp only [finStage]
  refine traceOk_mbind (traceOk_getServerinfo hSi w) (fun fi w' => ?_)
  rcases fi with _ | fi
  · exact traceOk_mthrow _ w'
  · exact traceOk_mret _ w'

/-! ## C4: toggle semantics -/

/-- Core of C4, success-snapshot case: with the pre-command snapshot
observed as `i0`, the body of a toggle call issues exactly one
`componentstate` command, with state the negation of the observed
enablement. -/
theorem toggle_filter_core (env : Env) (w : World)
    (hip : w.ctrl.ipTruthy = true) (i0 : ServerInfo)
    (hout : serverinfoOutcome (env w.idx) = some i0) :
    ((sendCommandBody env
        (some ⟨some PowerParam.toggle, none, none, none, none⟩) w).2).sent.filter
      HCommand.isComponentstateCmd =
    w.sent.filter HCommand.isComponentstateCmd ++
      [HCommand.componentstate HYPERION_COMPONENT_LEDDEVICE
        (!leddeviceEnabled i0)] := by
  rw [body_run hip, hout]
  rw [show afterSnapshot env
      (some ⟨some PowerParam.toggle, none, none, none, none⟩) (some i0) =
    mbind (autoPowerOn env
        (some ⟨some PowerParam.toggle, none, none, none, none⟩)
        (leddeviceEnabled i0))
      (fun _ =>
        mbind (processParams env
            (some ⟨some PowerParam.toggle, none, none, none, none⟩)
            (leddeviceEnabled i0) false)
          (fun _ => finStage env)) from rfl]
  rw [autoPowerOn_of_powerControl (show isPowerControlCommand
    (some ⟨some PowerParam.toggle, none, none, none, none⟩) = true from rfl),
    mbind_mret]
  rw [show processParams env
      (some ⟨some PowerParam.toggle, none, none, none, none⟩)
      (leddeviceEnabled i0) false =
    mbind (mbind (sendHyperion env
        (HCommand.componentstate HYPERION_COMPONENT_LEDDEVICE
          (!leddeviceEnabled i0)))
      (fun _ => mret ())) (fun _ => mret ()) from rfl]
  rw [mbind_assoc, mbind_assoc]
  have hip1 : (w.push HCommand.serverinfo).ctrl.ipTruthy = true := by
    rw [World.push_ctrl]
    exact hip
  rw [filter_mbind_send rfl hip1 (fun a w' => ?_)]
  · rw [World.push_sent, List.filter_append]
    simp [HCommand.isComponentstateCmd]
  · exact traceOk_mbind (traceOk_mret _ w')
      (fun b w2 => traceOk_mbind (traceOk_mret _ w2)
        (fun c w3 => traceOk_finStage (by simp [HCommand.isComponentstateCmd]) w3))

theorem mbind_getServerinfo_run {β : Type} {env : Env}
    {k : Option ServerInfo → M β} {w : World}
    (hip : w.ctrl.ipTruthy = true) :
    mbind (getServerinfo env) k w =
      k (serverinfoOutcome (env w.idx)) (w.push HCommand.serverinfo) := by
  unfold mbind
  rw [getServerinfo_run hip]

/-- Core of C4, failed-snapshot case: when the pre-command snapshot read
fails, a toggle call re-fetches the snapshot (a second `serverinfo` round
trip before the power command) and inverts the re-fetched enablement. -/
theorem toggle_refetch_core (env : Env) (w : World)
    (hip : w.ctrl.ipTruthy = true) (i1 : ServerInfo)
    (hout0 : serverinfoOutcome (env w.idx) = none)
    (hout1 : serverinfoOutcome (env (w.idx + 1)) = some i1) :
    (∃ rest, ((sendCommandBody env
        (some ⟨some PowerParam.toggle, none, none, none, none⟩) w).2).sent =
      w.sent ++ [HCommand.serverinfo, HCommand.serverinfo,
        HCommand.componentstate HYPERION_COMPONENT_LEDDEVICE
          (!leddeviceEnabled i1)] ++ rest) ∧
    ((sendCommandBody env
        (some ⟨some PowerParam.toggle, none, none, none, none⟩) w).2).sent.filter
      HCommand.isComponentstateCmd =
    w.sent.filter HCommand.isComponentstateCmd ++
      [HCommand.componentstate HYPERION_COMPONENT_LEDDEVICE
        (!leddeviceEnabled i1)] := by
  rw [body_run hip, hout0]
  rw [show afterSnapshot env
      (some ⟨some PowerParam.toggle, none, none, none, none⟩) none =
    mbind (autoPowerOn env
        (some ⟨some PowerParam.toggle, none, none, none, none⟩) false)
      (fun _ =>
        mbind (processParams env
            (some ⟨some PowerParam.toggle, none, none, none, none⟩)
            false true)
          (fun _ => finStage env)) from rfl]
  rw [autoPowerOn_of_powerControl (show isPowerControlCommand
    (some ⟨some PowerParam.toggle, none, none, none, none⟩) = true from rfl),
    mbind_mret]
  rw [show processParams env
      (some ⟨some PowerParam.toggle, none, none, none, none⟩) false true =
    mbind (mbind (mbind (getServerinfo env)
        (fun info2 => mret (match info2 with
          | none => !false
          | some i => !(leddeviceEnabledOr false i))))
      (fun target => mbind (sendHyperion env
          (HCommand.componentstate HYPERION_COMPONENT_LEDDEVICE target))
        (fun _ => mret ())))
      (fun _ => mret ()) from rfl]
  rw [mbind_assoc, mbind_assoc, mbind_assoc]
  have hip1 : (w.push HCommand.serverinfo).ctrl.ipTruthy = true := by
    rw [World.push_ctrl]
    exact hip
  rw [mbind_getServerinfo_run hip1, World.push_idx, hout1]
  simp only [mbind_mret]
  have hip2 : ((w.push HCommand.serverinfo).push
      HCommand.serverinfo).ctrl.ipTruthy = true := by
    rw [World.push_ctrl, World.push_ctrl]
    exact hip
  rw [mbind_assoc]
  simp only [leddeviceEnabled]
  constructor
  · obtain ⟨rest, hrest⟩ := sent_mbind_send hip2 (fun a w' =>
      traceOk_mbind (traceOk_mret () w') (fun b w2 =>
        traceOk_finStage (P := fun _ => True) trivial w2))
    refine ⟨rest, ?_⟩
    rw [hrest]
    simp [World.push_sent, List.append_assoc]
  · rw [filter_mbind_send rfl hip2 (fun a w' =>
      traceOk_mbind (traceOk_mret () w') (fun b w2 =>
        traceOk_finStage (P := fun c => HCommand.isComponentstateCmd c = false)
          rfl w2))]
    simp [World.push_sent, List.filter_append, HCommand.isComponentstateCmd]

/-- C4: `set_power(2)` (toggle) issues exactly one `componentstate` command
whose state is the negation of the observed LEDDEVICE enablement E from the
pre-command snapshot; when the initial snapshot fetch failed, the
enablement is re-fetched (a second `serverinfo` round trip) before
inverting. -/
theorem claim_C4_toggle_inversion (env : Env) (w : World)
    (hip : w.ctrl.ipTruthy = true) :
    (∀ resp i0, env w.idx = SendResult.ok resp → resp.success = true →
      resp.info = some i0 →
      ((set_power env (PyVal.int 2) w).2).sent.filter
        HCommand.isComponentstateCmd =
      w.sent.filter HCommand.isComponentstateCmd ++
        [HCommand.componentstate HYPERION_COMPONENT_LEDDEVICE
          (!leddeviceEnabled i0)]) ∧
    (∀ i1, serverinfoOutcome (env w.idx) = none →
      serverinfoOutcome (env (w.idx + 1)) = some i1 →
      (∃ rest, ((set_power env (PyVal.int 2) w).2).sent =
        w.sent ++ [HCommand.serverinfo, HCommand.serverinfo,
          HCommand.componentstate HYPERION_COMPONENT_LEDDEVICE
            (!leddeviceEnabled i1)] ++ rest) ∧
      ((set_power env (PyVal.int 2) w).2).sent.filter
        HCommand.isComponentstateCmd =
      w.sent.filter HCommand.isComponentstateCmd ++
        [HCommand.componentstate HYPERION_COMPONENT_LEDDEVICE
          (!leddeviceEnabled i1)]) := by
  have hsp : (set_power env (PyVal.int 2) w).2 =
      (sendCommandBody env
        (some ⟨some PowerParam.toggle, none, none, none, none⟩) w).2 := by
    rw [show set_power env (PyVal.int 2) w =
      okRun (sendCommand env
        (some ⟨some PowerParam.toggle, none, none, none, none⟩)) w from rfl,
      okRun_snd, sendCommand_snd]
  constructor
  · intro resp i0 h0 hs hi
    have hout : serverinfoOutcome (env w.idx) = some i0 := by
      rw [h0]
      simp [serverinfoOutcome, hs, hi]
    rw [hsp]
    exact toggle_filter_core env w hip i0 hout
  · intro i1 hout0 hout1
    have h := toggle_refetch_core env w hip i1 hout0 hout1
    rw [hsp]
    exact h

/-- Witness for C4: a toggle against a downstream whose snapshot reports
LEDDEVICE enabled issues exactly the disable command. -/
theorem claim_C4_witness :
    ((set_power
        (fun _ => SendResult.ok
          ⟨true, some ⟨[⟨some "LEDDEVICE", some true⟩], [], []⟩⟩)
        (PyVal.int 2)
        ⟨⟨some "hyperion-host", 19444, 50, none, "LEDController"⟩, 0,
          []⟩).2).sent.filter HCommand.isComponentstateCmd =
      [HCommand.componentstate HYPERION_COMPONENT_LEDDEVICE
        (!leddeviceEnabled ⟨[⟨some "LEDDEVICE", some true⟩], [], []⟩)] :=
  (claim_C4_toggle_inversion
    (fun _ => SendResult.ok
      ⟨true, some ⟨[⟨some "LEDDEVICE", some true⟩], [], []⟩⟩)
    ⟨⟨some "hyperion-host", 19444, 50, none, "LEDController"⟩, 0, []⟩
    (by decide)).1
    ⟨true, some ⟨[⟨some "LEDDEVICE", some true⟩], [], []⟩⟩
    ⟨[⟨some "LEDDEVICE", some true⟩], [], []⟩ rfl rfl rfl

/-! ## C3: the auto power-on precondition -/

theorem mbind_send_ok {β : Type} {env : Env} {cmd : HCommand}
    {resp : Response} {k : Response → M β} {w : World}
    (hip : w.ctrl.ipTruthy = true) (h : env w.idx = SendResult.ok resp) :
    mbind (sendHyperion env cmd) k w = k resp (w.push cmd) := by
  unfold mbind
  rw [sendHyperion_ok hip h]

/-- Core of C3, part one: with the device observed disabled, a color-only
call issues the power-on `componentstate` and then the color command, in
that order, as the first three round trips. -/
theorem color_poweron_core (env : Env) (w : World)
    (hip : w.ctrl.ipTruthy = true) (rv gv bv : Int) (resp : Response)
    (i0 : ServerInfo) (r1 : Response)
    (h0 : env w.idx = SendResult.ok resp) (hs : resp.success = true)
    (hi : resp.info = some i0) (hoff : leddeviceEnabled i0 = false)
    (h1 : env (w.idx + 1) = SendResult.ok r1) :
    ∃ rest, ((sendCommandBody env
        (some ⟨none, none,
          some [⟨none, none, none, none, some [[rv, gv, bv]]⟩], none,
          none⟩) w).2).sent =
      w.sent ++ [HCommand.serverinfo,
        HCommand.componentstate HYPERION_COMPONENT_LEDDEVICE true,
        HCommand.color [rv, gv, bv] w.ctrl.priority w.ctrl.origin] ++ rest := by
  have hout : serverinfoOutcome (env w.idx) = some i0 := by
    rw [h0]
    simp [serverinfoOutcome, hs, hi]
  rw [body_run hip, hout]
  rw [show afterSnapshot env
      (some ⟨none, none,
        some [⟨none, none, none, none, some [[rv, gv, bv]]⟩], none, none⟩)
      (some i0) =
    mbind (autoPowerOn env
        (some ⟨none, none,
          some [⟨none, none, none, none, some [[rv, gv, bv]]⟩], none, none⟩)
        (leddeviceEnabled i0))
      (fun _ =>
        mbind (processParams env
            (some ⟨none, none,
              some [⟨none, none, none, none, some [[rv, gv, bv]]⟩], none,
              none⟩)
            (leddeviceEnabled i0) false)
          (fun _ => finStage env)) from rfl]
  rw [hoff]
  rw [show autoPowerOn env
      (some ⟨none, none,
        some [⟨none, none, none, none, some [[rv, gv, bv]]⟩], none, none⟩)
      false =
    mbind (sendHyperion env
        (HCommand.componentstate HYPERION_COMPONENT_LEDDEVICE true))
      (fun _ => mret ()) from rfl]
  rw [mbind_assoc]
  have hip1 : (w.push HCommand.serverinfo).ctrl.ipTruthy = true := by
    rw [World.push_ctrl]
    exact hip
  have h1' : env (w.push HCommand.serverinfo).idx = SendResult.ok r1 := by
    rw [World.push_idx]
    exact h1
  rw [mbind_send_ok hip1 h1']
  simp only [mbind_mret]
  rw [show processParams env
      (some ⟨none, none,
        some [⟨none, none, none, none, some [[rv, gv, bv]]⟩], none, none⟩)
      false false =
    mbind (processSegment env
        ⟨none, none, none, none, some [[rv, gv, bv]]⟩)
      (fun _ => mret ()) from rfl]
  rw [mbind_assoc]
  have hip2 : ((w.push HCommand.serverinfo).push
      (HCommand.componentstate HYPERION_COMPONENT_LEDDEVICE
        true)).ctrl.ipTruthy = true := by
    rw [World.push_ctrl, World.push_ctrl]
    exact hip
  rw [show mbind (processSegment env
        ⟨none, none, none, none, some [[rv, gv, bv]]⟩)
      (fun a => mbind (mret ()) (fun _ => finStage env))
      ((w.push HCommand.serverinfo).push
        (HCommand.componentstate HYPERION_COMPONENT_LEDDEVICE true)) =
    mbind (mbind (sendHyperion env
        (HCommand.color [rv, gv, bv] w.ctrl.priority w.ctrl.origin))
      (fun _ => mret ()))
      (fun a => mbind (mret ()) (fun _ => finStage env))
      ((w.push HCommand.serverinfo).push
        (HCommand.componentstate HYPERION_COMPONENT_LEDDEVICE true))
    from rfl]
  rw [mbind_assoc]
  obtain ⟨rest, hrest⟩ := sent_mbind_send hip2 (fun a w' =>
    traceOk_mbind (traceOk_mret () w') (fun b w2 =>
      traceOk_mbind (traceOk_mret () w2) (fun c w3 =>
        traceOk_finStage (P := fun _ => True) trivial w3)))
  refine ⟨rest, ?_⟩
  rw [hrest]
  simp [World.push_sent, List.append_assoc]

/-- Core of C3, part two: a power-off call issues exactly one
`componentstate` command (the disable), for every downstream behaviour. -/
theorem power_off_core (env : Env) (w : World)
    (hip : w.ctrl.ipTruthy = true) :
    ((sendCommandBody env
        (some ⟨some (PowerParam.state false), none, none, none, none⟩)
        w).2).sent.filter HCommand.isComponentstateCmd =
    w.sent.filter HCommand.isComponentstateCmd ++
      [HCommand.componentstate HYPERION_COMPONENT_LEDDEVICE false] := by
  have hip1 : (w.push HCommand.serverinfo).ctrl.ipTruthy = true := by
    rw [World.push_ctrl]
    exact hip
  have hK : ∀ (a : Response) (w' : World),
      TraceOk (fun c => HCommand.isComponentstateCmd c = false) w'
        ((fun a => mbind ((fun _ => mret ()) a)
          (fun a => mbind ((fun _ => mret ()) a)
            (fun _ => finStage env))) a w') := fun a w' =>
    traceOk_mbind (traceOk_mret () w') (fun b w2 =>
      traceOk_mbind (traceOk_mret () w2) (fun c w3 =>
        traceOk_finStage (P := fun c => HCommand.isComponentstateCmd c = false)
          rfl w3))
  rw [body_run hip]
  rcases hout : serverinfoOutcome (env w.idx) with _ | i0
  · rw [show afterSnapshot env
        (some ⟨some (PowerParam.state false), none, none, none, none⟩)
        none =
      mbind (autoPowerOn env
          (some ⟨some (PowerParam.state false), none, none, none, none⟩)
          false)
        (fun _ =>
          mbind (processParams env
              (some ⟨some (PowerParam.state false), none, none, none, none⟩)
              false true)
            (fun _ => finStage env)) from rfl]
    rw [autoPowerOn_of_powerControl (show isPowerControlCommand
      (some ⟨some (PowerParam.state false), none, none, none, none⟩) = true
      from rfl), mbind_mret]
    rw [show processParams env
        (some ⟨some (PowerParam.state false), none, none, none, none⟩)
        false true =
      mbind (mbind (sendHyperion env
          (HCommand.componentstate HYPERION_COMPONENT_LEDDEVICE false))
        (fun _ => mret ())) (fun _ => mret ()) from rfl]
    rw [mbind_assoc, mbind_assoc]
    rw [filter_mbind_send rfl hip1 hK]
    simp [World.push_sent, List.filter_append, HCommand.isComponentstateCmd]
  · rw [show afterSnapshot env
        (some ⟨some (PowerParam.state false), none, none, none, none⟩)
        (some i0) =
      mbind (autoPowerOn env
          (some ⟨some (PowerParam.state false), none, none, none, none⟩)
          (leddeviceEnabled i0))
        (fun _ =>
          mbind (processParams env
              (some ⟨some (PowerParam.state false), none, none, none, none⟩)
              (leddeviceEnabled i0) false)
            (fun _ => finStage env)) from rfl]
    rw [autoPowerOn_of_powerControl (show isPowerControlCommand
      (some ⟨some (PowerParam.state false), none, none, none, none⟩) = true
      from rfl), mbind_mret]
    rw [show processParams env
        (some ⟨some (PowerParam.state false), none, none, none, none⟩)
        (leddeviceEnabled i0) false =
      mbind (mbind (sendHyperion env
          (HCommand.componentstate HYPERION_COMPONENT_LEDDEVICE false))
        (fun _ => mret ())) (fun _ => mret ()) from rfl]
    rw [mbind_assoc, mbind_assoc]
    rw [filter_mbind_send rfl hip1 hK]
    simp [World.push_sent, List.filter_append, HCommand.isComponentstateCmd]

/-- C3: with the pre-command snapshot reporting LEDDEVICE disabled, a
`set_color` call issues a power-on `componentstate` command before the
color command; and a `set_power(0)` call alone issues no power-on — its only
`componentstate` command is the single disable. -/
theorem claim_C3_auto_power_on (env : Env) (w : World)
    (hip : w.ctrl.ipTruthy = true) :
    (∀ rv gv bv resp i0 r1, env w.idx = SendResult.ok resp →
      resp.success = true → resp.info = some i0 →
      leddeviceEnabled i0 = false → env (w.idx + 1) = SendResult.ok r1 →
      ∃ rest, ((set_color env (PyVal.int rv) (PyVal.int gv) (PyVal.int bv)
          PyVal.none none w).2).sent =
        w.sent ++ [HCommand.serverinfo,
          HCommand.componentstate HYPERION_COMPONENT_LEDDEVICE true,
          HCommand.color [rv, gv, bv] w.ctrl.priority w.ctrl.origin] ++
          rest) ∧
    (((set_power env (PyVal.int 0) w).2).sent.filter
        HCommand.isComponentstateCmd =
      w.sent.filter HCommand.isComponentstateCmd ++
        [HCommand.componentstate HYPERION_COMPONENT_LEDDEVICE false]) := by
  constructor
  · intro rv gv bv resp i0 r1 h0 hs hi hoff h1
    have hsp : (set_color env (PyVal.int rv) (PyVal.int gv) (PyVal.int bv)
        PyVal.none none w).2 =
        (sendCommandBody env
          (some ⟨none, none,
            some [⟨none, none, none, none, some [[rv, gv, bv]]⟩], none,
            none⟩) w).2 := by
      rw [show set_color env (PyVal.int rv) (PyVal.int gv) (PyVal.int bv)
          PyVal.none none w =
        okRun (sendCommand env
          (some ⟨none, none,
            some [⟨none, none, none, none, some [[rv, gv, bv]]⟩], none,
            none⟩)) w from rfl, okRun_snd, sendCommand_snd]
    rw [hsp]
    exact color_poweron_core env w hip rv gv bv resp i0 r1 h0 hs hi hoff h1
  · have hsp : (set_power env (PyVal.int 0) w).2 =
        (sendCommandBody env
          (some ⟨some (PowerParam.state false), none, none, none, none⟩)
          w).2 := by
      rw [show set_power env (PyVal.int 0) w =
        okRun (sendCommand env
          (some ⟨some (PowerParam.state false), none, none, none, none⟩))
          w from rfl, okRun_snd, sendCommand_snd]
    rw [hsp]
    exact power_off_core env w hip

/-- Witness for C3: against a downstream reporting LEDDEVICE disabled,
`set_color(255, 0, 0)` issues `serverinfo`, power-on, color (then the final
reconciliation fetch); and `set_power(0)` issues exactly the disable. -/
theorem claim_C3_witness :
    (∃ rest, ((set_color
        (fun _ => SendResult.ok
          ⟨true, some ⟨[⟨some "LEDDEVICE", some false⟩], [], []⟩⟩)
        (PyVal.int 255) (PyVal.int 0) (PyVal.int 0) PyVal.none none
        ⟨⟨some "hyperion-host", 19444, 50, none, "LEDController"⟩, 0,
          []⟩).2).sent =
      [] ++ [HCommand.serverinfo,
        HCommand.componentstate HYPERION_COMPONENT_LEDDEVICE true,
        HCommand.color [255, 0, 0] 50 "LEDController"] ++ rest) ∧
    ((set_power
        (fun _ => SendResult.ok
          ⟨true, some ⟨[⟨some "LEDDEVICE", some false⟩], [], []⟩⟩)
        (PyVal.int 0)
        ⟨⟨some "hyperion-host", 19444, 50, none, "LEDController"⟩, 0,
          []⟩).2).sent.filter HCommand.isComponentstateCmd =
      [] ++ [HCommand.componentstate HYPERION_COMPONENT_LEDDEVICE false] := by
  have h := claim_C3_auto_power_on
    (fun _ => SendResult.ok
      ⟨true, some ⟨[⟨some "LEDDEVICE", some false⟩], [], []⟩⟩)
    ⟨⟨some "hyperion-host", 19444, 50, none, "LEDController"⟩, 0, []⟩
    (by decide)
  exact ⟨h.1 255 0 0 ⟨true, some ⟨[⟨some "LEDDEVICE", some false⟩], [], []⟩⟩
    ⟨[⟨some "LEDDEVICE", some false⟩], [], []⟩
    ⟨true, some ⟨[⟨some "LEDDEVICE", some false⟩], [], []⟩⟩
    rfl rfl rfl (by decide) rfl, h.2⟩

/-! ## C6: effect map determinism -/

theorem processSegment_mapped {env : Env} {seg : SegmentData} {k : Int}
    {name : String} (hfx : seg.fx = some k)
    (hmap : WLED_TO_HYPERION_EFFECT_MAP.lookup k = some name) (w : World) :
    processSegment env seg w =
      mbind (sendHyperion env (HCommand.effect name
          (effectArgsOfSegment seg) w.ctrl.priority w.ctrl.origin))
        (fun _ => mret ()) w := by
  simp only [processSegment, hfx, hmap]

theorem mbind_congr_fst {α β : Type} {x x' : M α} {k : α → M β} {w : World}
    (h : x w = x' w) : mbind x k w = mbind x' k w := by
  unfold mbind
  rw [h]

/-- Core of C6, mapped case: with the device observed enabled, an
effect-only call on a mapped index issues exactly one effect command, whose
name is the mapped value and whose argument object is empty. -/
theorem effect_mapped_core (env : Env) (w : World)
    (hip : w.ctrl.ipTruthy = true) (k : Int) (name : String)
    (resp : Response) (i0 : ServerInfo)
    (hmap : WLED_TO_HYPERION_EFFECT_MAP.lookup k = some name)
    (h0 : env w.idx = SendResult.ok resp) (hs : resp.success = true)
    (hi : resp.info = some i0) (hon : leddeviceEnabled i0 = true) :
    ((sendCommandBody env
        (some ⟨none, none, some [⟨some k, none, none, none, none⟩], none,
          none⟩) w).2).sent.filter HCommand.isEffectCmd =
    w.sent.filter HCommand.isEffectCmd ++
      [HCommand.effect name emptyArgs w.ctrl.priority w.ctrl.origin] := by
  have hout : serverinfoOutcome (env w.idx) = some i0 := by
    rw [h0]
    simp [serverinfoOutcome, hs, hi]
  rw [body_run hip, hout]
  rw [show afterSnapshot env
      (some ⟨none, none, some [⟨some k, none, none, none, none⟩], none,
        none⟩) (some i0) =
    mbind (autoPowerOn env
        (some ⟨none, none, some [⟨some k, none, none, none, none⟩], none,
          none⟩)
        (leddeviceEnabled i0))
      (fun _ =>
        mbind (processParams env
            (some ⟨none, none, some [⟨some k, none, none, none, none⟩],
              none, none⟩)
            (leddeviceEnabled i0) false)
          (fun _ => finStage env)) from rfl]
  rw [hon]
  rw [show autoPowerOn env
      (some ⟨none, none, some [⟨some k, none, none, none, none⟩], none,
        none⟩) true = mret () from rfl]
  rw [mbind_mret]
  rw [show processParams env
      (some ⟨none, none, some [⟨some k, none, none, none, none⟩], none,
        none⟩) true false =
    mbind (processSegment env ⟨some k, none, none, none, none⟩)
      (fun _ => mret ()) from rfl]
  rw [mbind_assoc]
  rw [mbind_congr_fst (processSegment_mapped rfl hmap
    (w.push HCommand.serverinfo))]
  rw [mbind_assoc]
  have hip1 : (w.push HCommand.serverinfo).ctrl.ipTruthy = true := by
    rw [World.push_ctrl]
    exact hip
  rw [filter_mbind_send rfl hip1 (fun a w' =>
    traceOk_mbind (traceOk_mret () w') (fun b w2 =>
      traceOk_mbind (traceOk_mret () w2) (fun c w3 =>
        traceOk_finStage (P := fun c => HCommand.isEffectCmd c = false)
          rfl w3)))]
  simp [World.push_sent, World.push_ctrl, List.filter_append,
    HCommand.isEffectCmd, effectArgsOfSegment, emptyArgs]

/-- Core of C6, unmapped case: for an unmapped index, `_send_command` with
an effect segment issues no effect command and no color command, whatever
the other segment fields hold. -/
theorem sendCommand_unmapped_filters (env : Env) (w : World) (k : Int)
    (hmap : WLED_TO_HYPERION_EFFECT_MAP.lookup k = none)
    (briOpt sxOpt ixOpt palOpt : Option Int)
    (colOpt : Option (List (List Int))) (trOpt : Option Int) :
    ((sendCommand env
        (some ⟨none, briOpt, some [⟨some k, sxOpt, ixOpt, palOpt, colOpt⟩],
          none, trOpt⟩) w).2).sent.filter HCommand.isEffectCmd =
      w.sent.filter HCommand.isEffectCmd ∧
    ((sendCommand env
        (some ⟨none, briOpt, some [⟨some k, sxOpt, ixOpt, palOpt, colOpt⟩],
          none, trOpt⟩) w).2).sent.filter HCommand.isColorCmd =
      w.sent.filter HCommand.isColorCmd := by
  have htr : TraceOk
      (fun c => HCommand.isEffectCmd c = false ∧
        HCommand.isColorCmd c = false) w
      (sendCommand env
        (some ⟨none, briOpt, some [⟨some k, sxOpt, ixOpt, palOpt, colOpt⟩],
          none, trOpt⟩) w) := by
    refine traceOk_sendCommand ⟨rfl, rfl⟩ (fun b => ⟨rfl, rfl⟩)
      (fun n => ⟨rfl, rfl⟩) ?_ ?_ w
    · intro p hp s0 rest hs w'
      cases Option.some.inj hp
      obtain ⟨h1, h2⟩ := List.cons_eq_cons.mp (Option.some.inj hs)
      exact traceOk_processSegment_unmapped (by rw [← h1]) hmap w'
    · intro p hp pid hps
      cases Option.some.inj hp
      exact absurd hps (by simp)
  constructor
  · exact filter_of_traceOk (traceOk_mono (fun c hc => hc.1) htr)
  · exact filter_of_traceOk (traceOk_mono (fun c hc => hc.2) htr)

set_option maxHeartbeats 2000000 in
/-- C6: for a key in the Effect Map, an effect-only `set_effect` call (with
the device observed enabled) issues exactly one effect command whose name
is the mapped value; for an index absent from the map, `set_effect` issues
zero effect commands and zero color commands, for every combination of
optional arguments and every downstream behaviour, and still completes
normally with a status object. -/
theorem claim_C6_effect_mapping (env : Env) (w : World) :
    (∀ k name resp i0, WLED_TO_HYPERION_EFFECT_MAP.lookup k = some name →
      w.ctrl.ipTruthy = true → env w.idx = SendResult.ok resp →
      resp.success = true → resp.info = some i0 →
      leddeviceEnabled i0 = true →
      ((set_effect env (PyVal.int k) PyVal.none PyVal.none PyVal.none
        PyVal.none PyVal.none PyVal.none PyVal.none PyVal.none none
        PyVal.none PyVal.none PyVal.none PyVal.none none 0 w).2).sent.filter
          HCommand.isEffectCmd =
        w.sent.filter HCommand.isEffectCmd ++
          [HCommand.effect name emptyArgs w.ctrl.priority w.ctrl.origin]) ∧
    (∀ k, WLED_TO_HYPERION_EFFECT_MAP.lookup k = none →
      ∀ spd it br pal r g b wv hexArg r2 g2 b2 w2v hex2Arg tr,
      (∃ s w', set_effect env (PyVal.int k) spd it br pal r g b wv hexArg
        r2 g2 b2 w2v hex2Arg tr w = (Except.ok s, w')) ∧
      ((set_effect env (PyVal.int k) spd it br pal r g b wv hexArg r2 g2 b2
        w2v hex2Arg tr w).2).sent.filter HCommand.isEffectCmd =
        w.sent.filter HCommand.isEffectCmd ∧
      ((set_effect env (PyVal.int k) spd it br pal r g b wv hexArg r2 g2 b2
        w2v hex2Arg tr w).2).sent.filter HCommand.isColorCmd =
        w.sent.filter HCommand.isColorCmd) := by
  constructor
  · intro k name resp i0 hmap hip h0 hs hi hon
    have hsp : (set_effect env (PyVal.int k) PyVal.none PyVal.none
        PyVal.none PyVal.none PyVal.none PyVal.none PyVal.none PyVal.none
        none PyVal.none PyVal.none PyVal.none PyVal.none none 0 w).2 =
        (sendCommandBody env
          (some ⟨none, none, some [⟨some k, none, none, none, none⟩], none,
            none⟩) w).2 := by
      rw [show set_effect env (PyVal.int k) PyVal.none PyVal.none PyVal.none
          PyVal.none PyVal.none PyVal.none PyVal.none PyVal.none none
          PyVal.none PyVal.none PyVal.none PyVal.none none 0 w =
        okRun (sendCommand env
          (some ⟨none, none, some [⟨some k, none, none, none, none⟩], none,
            none⟩)) w from rfl, okRun_snd, sendCommand_snd]
    rw [hsp]
    exact effect_mapped_core env w hip k name resp i0 hmap h0 hs hi hon
  · intro k hmap spd it br pal r g b wv hexArg r2 g2 b2 w2v hex2Arg tr
    refine ⟨exists_of_isOk (isOk_set_effect env (PyVal.int k) spd it br pal
      r g b wv hexArg r2 g2 b2 w2v hex2Arg tr w), ?_, ?_⟩
    · simp only [set_effect, pyToInt]
      repeat' split
      all_goals first
        | rfl
        | (rw [okRun_snd]
           exact (sendCommand_unmapped_filters env w k hmap _ _ _ _ _ _).1)
    · simp only [set_effect, pyToInt]
      repeat' split
      all_goals first
        | rfl
        | (rw [okRun_snd]
           exact (sendCommand_unmapped_filters env w k hmap _ _ _ _ _ _).2)

/-- Witness for C6: WLED effect 2 maps to `"Breath"`; against an enabled
downstream, `set_effect(2)` issues exactly one effect command named
`"Breath"` with empty arguments. -/
theorem claim_C6_witness :
    ((set_effect
        (fun _ => SendResult.ok
          ⟨true, some ⟨[⟨some "LEDDEVICE", some true⟩], [], []⟩⟩)
        (PyVal.int 2) PyVal.none PyVal.none PyVal.none PyVal.none PyVal.none
        PyVal.none PyVal.none PyVal.none none PyVal.none PyVal.none
        PyVal.none PyVal.none none 0
        ⟨⟨some "hyperion-host", 19444, 50, none, "LEDController"⟩, 0,
          []⟩).2).sent.filter HCommand.isEffectCmd =
      [HCommand.effect "Breath" emptyArgs 50 "LEDController"] :=
  (claim_C6_effect_mapping
    (fun _ => SendResult.ok
      ⟨true, some ⟨[⟨some "LEDDEVICE", some true⟩], [], []⟩⟩)
    ⟨⟨some "hyperion-host", 19444, 50, none, "LEDController"⟩, 0, []⟩).1
    2 "Breath" ⟨true, some ⟨[⟨some "LEDDEVICE", some true⟩], [], []⟩⟩
    ⟨[⟨some "LEDDEVICE", some true⟩], [], []⟩
    (by decide) (by decide) rfl rfl rfl (by decide)

/-- Witness for C7 at concrete inputs: no visible source infers preset -1,
and the loop agrees with the spec-worded description on a visible
`Preset02` effect source. -/
theorem claim_C7_witness :
    inferActivePreset [] = -1 ∧
    inferActivePreset [⟨true, some "EFFECT", some "Preset02", none⟩] =
      inferActivePresetSpec [⟨true, some "EFFECT", some "Preset02", none⟩] :=
  ⟨claim_C7_preset_inference.2.1 [] rfl,
    claim_C7_preset_inference.1 [⟨true, some "EFFECT", some "Preset02", none⟩]⟩

/-- Witness for C9: `set_effect(2, speed=300)` fails validation with a
`connected = false` status and no network activity. -/
theorem claim_C9_witness :
    ∃ s, set_effect (fun _ => SendResult.timeout) (PyVal.int 2)
        (PyVal.int 300) PyVal.none PyVal.none PyVal.none PyVal.none
        PyVal.none PyVal.none PyVal.none none PyVal.none PyVal.none
        PyVal.none PyVal.none none 0
        ⟨⟨some "hyperion-host", 19444, 50, none, "LEDController"⟩, 0, []⟩ =
      (Except.ok s,
        ⟨⟨some "hyperion-host", 19444, 50, none, "LEDController"⟩, 0, []⟩) ∧
      s.connected = false :=
  (claim_C9_validation_amended (fun _ => SendResult.timeout)
    ⟨⟨some "hyperion-host", 19444, 50, none, "LEDController"⟩, 0, []⟩
    (PyVal.int 2) (PyVal.int 300) PyVal.none PyVal.none PyVal.none
    PyVal.none PyVal.none PyVal.none PyVal.none none PyVal.none PyVal.none
    PyVal.none PyVal.none none 0).1 300 rfl (by decide)

end HyperionAdapter
